import Mathlib

/-!
Verification of the bitum cache plugin (politeiad/cache/cockroachdb/bitum.go).

The plugin is embedded shallowly: the relational store becomes a record of
lists (one list per table), every fallible database write consumes one flag
from an explicit fault script (`List Bool`, `true` = the operation fails, an
empty script means no failure is injected), and the opaque command/reply
payload strings become an inductive `Payload` whose decode functions succeed
exactly on the constructor that carries the decoded value.  Machine integers
(uint64) are modelled as `Nat`; the one place the source computes in float64
(the quorum/pass thresholds of `newVoteResults`) is modelled by an explicit
IEEE-754 binary64 round-to-nearest-even model over `Nat` fractions.
-/

namespace Politeia

/-- Error values surfaced by the cache plugin.  `recordNotFound` models
`cache.ErrRecordNotFound`, `invalidPluginCmd` models
`cache.ErrInvalidPluginCmd`, `sqlError` is a store-level write failure
injected by the fault script, `decodeFailed` a payload decode error,
`parseFailed` a `strconv.ParseUint` error, `wrapped` a
`fmt.Errorf("ctx: %v", err)` wrapper and `msg` a plain `fmt.Errorf`. -/
inductive Err where
  | recordNotFound
  | invalidPluginCmd
  | sqlError
  | decodeFailed
  | parseFailed
  | wrapped (ctx : String) (e : Err)
  | msg (s : String)
deriving DecidableEq

/-- Pop the next flag of a fault script; an exhausted script injects no
failure. -/
def takeFault : List Bool → Bool × List Bool
  | [] => (false, [])
  | b :: r => (b, r)

/-- Go `strings.Split(s, ",")` on the character list of `s`: splits at every
comma; the empty string yields one (empty) field. -/
def splitComma : List Char → List (List Char)
  | [] => [[]]
  | c :: rest =>
    if c = ',' then [] :: splitComma rest
    else
      match splitComma rest with
      | [] => [[c]]
      | x :: xs => (c :: x) :: xs

/-- `len(strings.Split(sv.EligibleTickets, ","))` of `newVoteResults`
(bitum.go line 597). -/
def eligibleCount (s : List Char) : Nat := (splitComma s).length

/-- Whether a character is a decimal digit. -/
def isDigitCh (c : Char) : Bool := decide ('0' ≤ c) && decide (c ≤ '9')

/-- Accumulate the decimal value of a digit list; `none` on a non-digit. -/
def parseUintLoop : List Char → Nat → Option Nat
  | [], acc => some acc
  | c :: r, acc =>
    if isDigitCh c then parseUintLoop r (acc * 10 + (c.toNat - '0'.toNat))
    else none

/-- Go `strconv.ParseUint(s, 10, 64)`: decimal digits only, non-empty, and
the value must fit in 64 bits. -/
def parseUint (s : String) : Option Nat :=
  match s.data with
  | [] => none
  | l =>
    match parseUintLoop l 0 with
    | none => none
    | some n => if n < 2 ^ 64 then some n else none

/-- Go `strconv.FormatUint(n, 16)` (lower-case hex, no padding). -/
def formatUint16 (n : Nat) : String := String.mk (Nat.toDigits 16 n)

/-- Go `strconv.FormatUint(n, 10)`. -/
def formatUint10 (n : Nat) : String := Nat.repr n

/-- Go `strings.Join(l, ",")` as a character list. -/
def joinComma (l : List String) : List Char := (String.intercalate "," l).data

/-! ### IEEE-754 binary64 model

`newVoteResults` computes
`quorum := uint64(float64(q) / 100 * float64(eligible))` and
`pass := uint64(float64(p) / 100 * float64(total))` (bitum.go lines
598-599).  The model below rounds a positive rational `a / b` to the
nearest binary64 value (ties to even) by normalising the significand into
`[2^52, 2^53)`; the value is represented as a pair `(m, k)` meaning
`m * 2^k`.  Subnormal and overflowing magnitudes are outside the range any
`uint64` input can produce here and are not modelled. -/

/-- Double `a` until `a / b ≥ 2^52`; `k` tracks the binary exponent. -/
def rdNormUp : Nat → Nat → Nat → Int → Nat × Nat × Int
  | 0, a, b, k => (a, b, k)
  | fuel + 1, a, b, k =>
    if a < 4503599627370496 * b then rdNormUp fuel (2 * a) b (k - 1)
    else (a, b, k)

/-- Double `b` until `a / b < 2^53`; `k` tracks the binary exponent. -/
def rdNormDown : Nat → Nat → Nat → Int → Nat × Nat × Int
  | 0, a, b, k => (a, b, k)
  | fuel + 1, a, b, k =>
    if 9007199254740992 * b ≤ a then rdNormDown fuel a (2 * b) (k + 1)
    else (a, b, k)

/-- Round `a / b` to the nearest integer, ties to even. -/
def rdInt (a b : Nat) : Nat :=
  let q := a / b
  let r := a % b
  if 2 * r < b then q
  else if b < 2 * r then q + 1
  else if q % 2 = 0 then q else q + 1

/-- Nearest binary64 value of the positive rational `a / b`, as a
significand/exponent pair `(m, k)` with value `m * 2^k`. -/
def roundD (a b : Nat) : Nat × Int :=
  match rdNormUp 1200 a b 0 with
  | (a1, b1, k1) =>
    match rdNormDown 1200 a1 b1 k1 with
    | (a2, b2, k2) => (rdInt a2 b2, k2)

/-- The exact rational `(num, den)` denoted by a float pair `(m, k)`. -/
def ratOfFloat : Nat × Int → Nat × Nat
  | (m, k) => if 0 ≤ k then (m * 2 ^ k.toNat, 1) else (m, 2 ^ (-k).toNat)

/-- Go `float64(n)` for `n : uint64` (round to nearest, ties to even). -/
def f64ofNat (n : Nat) : Nat × Int := if n = 0 then (0, 0) else roundD n 1

/-- Go float64 division by the exact constant 100. -/
def fdiv100 (x : Nat × Int) : Nat × Int :=
  match ratOfFloat x with
  | (a, b) => if a = 0 then (0, 0) else roundD a (100 * b)

/-- Go float64 multiplication. -/
def fmul (x y : Nat × Int) : Nat × Int :=
  match ratOfFloat x, ratOfFloat y with
  | (a, b), (c, d) => if a * c = 0 then (0, 0) else roundD (a * c) (b * d)

/-- Go `uint64(f)` for a non-negative float `f` (truncation toward zero). -/
def ftrunc (x : Nat × Int) : Nat :=
  match ratOfFloat x with
  | (a, b) => a / b

/-- The threshold `uint64(float64(pct) / 100 * float64(count))` computed by
`newVoteResults` for both the quorum and the pass requirement. -/
def threshold (pct count : Nat) : Nat :=
  ftrunc (fmul (fdiv100 (f64ofNat pct)) (f64ofNat count))

/-- Modelled from the spec: the threshold formula the specification states,
`floor(pct/100 * count)` in exact arithmetic (spec §4.4 step 3).  It is
compared against the source's float64 `threshold` above. -/
def specThreshold (pct count : Nat) : Nat := pct * count / 100

/-! ### Cache data model

The gorm model structs and the `convert*FromBitum` helpers live in files of
the repository that are not part of src/ (models.go / convert.go); their
fields are modelled from spec §3 and from the field accesses in bitum.go. -/

/-- Modelled from the spec: cache Comment row (§3; key = token + commentID,
message text, censored flag, up/down vote counts). -/
structure Comment where
  key : String
  token : String
  commentID : String
  parentID : String
  author : String
  comment : String
  timestamp : Int
  censored : Bool
  upVotes : Nat
  downVotes : Nat
deriving DecidableEq

/-- Modelled from the spec: cache LikeComment row (§3; append-only like /
dislike action). -/
structure LikeComment where
  token : String
  commentID : String
  author : String
  action : String
  timestamp : Int
deriving DecidableEq

/-- Modelled from the spec: cache AuthorizeVote row, keyed by
token + recordVersion (§3 and the key construction of bitum.go line 377). -/
structure AuthorizeVote where
  key : String
  token : String
  version : Nat
  action : String
  receipt : String
deriving DecidableEq

/-- Modelled from the spec: a vote option (§3; id, description, distinct bit
flag) plus the record token used by cmdVoteSummary (bitum.go line 923). -/
structure VoteOption where
  token : String
  id : String
  description : String
  bits : Nat
deriving DecidableEq

/-- Modelled from the spec: cache StartVote row (§3; options, end height,
eligible-ticket list, quorum and pass percentages).  `eligibleTickets` is
the comma-joined ticket string, kept as its character list. -/
structure StartVote where
  token : String
  options : List VoteOption
  endHeight : Nat
  eligibleTickets : List Char
  eligibleTicketCount : Nat
  quorumPercentage : Nat
  passPercentage : Nat
deriving DecidableEq

/-- Modelled from the spec: cache CastVote row (§3); `tokenVoteBit` is the
concatenated lookup column used by cmdVoteSummary (bitum.go line 923). -/
structure CastVote where
  token : String
  ticket : String
  voteBit : String
  tokenVoteBit : String
deriving DecidableEq

/-- Per-option tally row created by newVoteResults (bitum.go line 584). -/
structure VoteOptionResult where
  key : String
  votes : Nat
  option : VoteOption
deriving DecidableEq

/-- Vote results row created by newVoteResults (bitum.go line 623); the
associated VoteOptionResult rows are embedded. -/
structure VoteResults where
  token : String
  approved : Bool
  results : List VoteOptionResult
deriving DecidableEq

/-- Modelled from the spec: a record row of the main cache (token, version,
status, timestamp), as queried by cmdTokenInventory / cmdVoteDetails. -/
structure Record where
  token : String
  version : Nat
  status : Nat
  timestamp : Int
deriving DecidableEq

/-- Version record row (§6: `{pluginID, versionString, unixTimestamp}`). -/
structure VersionRow where
  id : String
  version : String
  timestamp : Int
deriving DecidableEq

/-- The persistent store: one list per table.  Vote options and vote option
results are embedded in their parent rows. -/
structure DB where
  records : List Record
  comments : List Comment
  commentLikes : List LikeComment
  castVotes : List CastVote
  authorizeVotes : List AuthorizeVote
  startVotes : List StartVote
  voteResults : List VoteResults
  versions : List VersionRow
deriving DecidableEq

/-- The empty store. -/
def emptyDB : DB := ⟨[], [], [], [], [], [], [], []⟩

/-- `bitumplugin.ID` (the plugin identifier; the bitumplugin package is not
part of src/, the value is nominal). -/
def bitumpluginID : String := "bitum"

/-- bitum.go line 23: version of the cache implementation of the plugin. -/
def bitumVersion : String := "1.1"

/-- bitum.go line 36: the vote option ID counted as approval. -/
def voteOptionIDApproved : String := "yes"

/-- `bitumplugin.AuthVoteActionAuthorize` (not in src/; nominal value). -/
def authVoteActionAuthorize : String := "authorize"

/-- Modelled from the spec: `pd.RecordStatusPublic` of the politeiad v1 API
(not in src/; the numeric value is nominal, only distinctness matters). -/
def recordStatusPublic : Nat := 4

/-- Modelled from the spec: `pd.RecordStatusArchived` (not in src/). -/
def recordStatusArchived : Nat := 6

/-! ### Wire payloads

The bitumplugin request/reply types (the command codec of spec §2) are not
part of src/; their fields are modelled from the accesses in bitum.go. -/

/-- Modelled from the spec: `bitumplugin.NewComment` command payload. -/
structure NewCommentPayload where
  token : String
  parentID : String
  comment : String
  author : String
deriving DecidableEq

/-- Modelled from the spec: `bitumplugin.NewCommentReply`. -/
structure NewCommentReplyPayload where
  commentID : String
  timestamp : Int
deriving DecidableEq

/-- Modelled from the spec: `bitumplugin.LikeComment` command payload. -/
structure LikeCommentPayload where
  token : String
  commentID : String
  author : String
  action : String
  timestamp : Int
deriving DecidableEq

/-- Modelled from the spec: `bitumplugin.CensorComment` command payload. -/
structure CensorCommentPayload where
  token : String
  commentID : String
deriving DecidableEq

/-- Modelled from the spec: `bitumplugin.GetComment` query payload. -/
structure GetCommentPayload where
  token : String
  commentID : String
deriving DecidableEq

/-- Modelled from the spec: `bitumplugin.CommentLikes` query payload. -/
structure CommentLikesPayload where
  token : String
  commentID : String
deriving DecidableEq

/-- Modelled from the spec: `bitumplugin.AuthorizeVote` command payload. -/
structure AuthorizeVotePayload where
  token : String
  action : String
  receipt : String
deriving DecidableEq

/-- Modelled from the spec: `bitumplugin.AuthorizeVoteReply`; the record
version arrives as a decimal string and is parsed with ParseUint
(bitum.go line 290). -/
structure AuthorizeVoteReplyPayload where
  recordVersion : String
  receipt : String
deriving DecidableEq

/-- Modelled from the spec: one option of a `bitumplugin.StartVote`. -/
structure VoteOptionPayload where
  id : String
  description : String
  bits : Nat
deriving DecidableEq

/-- Modelled from the spec: `bitumplugin.StartVote` command payload. -/
structure StartVotePayload where
  token : String
  options : List VoteOptionPayload
  quorumPercentage : Nat
  passPercentage : Nat
deriving DecidableEq

/-- Modelled from the spec: `bitumplugin.StartVoteReply`; the end height
arrives as a decimal string (bitum.go line 335) and the eligible tickets
as a string list that the converter comma-joins. -/
structure StartVoteReplyPayload where
  endHeight : String
  eligibleTickets : List String
deriving DecidableEq

/-- Modelled from the spec: one cast vote of a `bitumplugin.Ballot`. -/
structure CastVotePayload where
  token : String
  ticket : String
  voteBit : String
deriving DecidableEq

/-- Modelled from the spec: `bitumplugin.Ballot` command payload. -/
structure Ballot where
  votes : List CastVotePayload
deriving DecidableEq

/-- Modelled from the spec: one start-vote tuple of an inventory snapshot
(start vote paired with its reply, spec §4.3 step 3). -/
structure StartVoteTuple where
  startVote : StartVotePayload
  startVoteReply : StartVoteReplyPayload
deriving DecidableEq

/-- Modelled from the spec: a full comment carried by an inventory snapshot
(`bitumplugin.Comment`). -/
structure WireComment where
  token : String
  commentID : String
  parentID : String
  author : String
  comment : String
  timestamp : Int
  censored : Bool
  upVotes : Nat
  downVotes : Nat
deriving DecidableEq

/-- Modelled from the spec: `bitumplugin.InventoryReply`, the snapshot used
by Build and the reply type of cmdInventory. -/
structure InventoryReply where
  comments : List WireComment
  likeComments : List LikeCommentPayload
  authorizeVotes : List AuthorizeVotePayload
  authorizeVoteReplies : List AuthorizeVoteReplyPayload
  startVoteTuples : List StartVoteTuple
  castVotes : List CastVotePayload
deriving DecidableEq

/-- The five buckets of `bitumplugin.TokenInventoryReply`. -/
structure TokenInventoryReply where
  pre : List String
  active : List String
  approved : List String
  rejected : List String
  abandoned : List String
deriving DecidableEq

/-- One entry of a vote summary result list
(`bitumplugin.VoteOptionResult`). -/
structure VoteOptionResultReply where
  id : String
  description : String
  bits : Nat
  votes : Nat
deriving DecidableEq

/-- Modelled from the spec: `bitumplugin.VoteSummaryReply`. -/
structure VoteSummaryReply where
  authorized : Bool
  endHeight : String
  eligibleTicketCount : Nat
  quorumPercentage : Nat
  passPercentage : Nat
  results : List VoteOptionResultReply
deriving DecidableEq

/-- An opaque command or reply payload.  A decode function succeeds exactly
on its own constructor; every other value (in particular `.raw s`, an
arbitrary string) is a malformed payload for it.  Reply-encoding never
fails and produces the corresponding reply constructor. -/
inductive Payload where
  | raw (s : String)
  | newComment (nc : NewCommentPayload)
  | newCommentReply (ncr : NewCommentReplyPayload)
  | likeComment (lc : LikeCommentPayload)
  | censorComment (cc : CensorCommentPayload)
  | getComment (gc : GetCommentPayload)
  | getComments (token : String)
  | commentLikes (cl : CommentLikesPayload)
  | proposalCommentsLikes (token : String)
  | authorizeVote (av : AuthorizeVotePayload)
  | authorizeVoteReply (avr : AuthorizeVoteReplyPayload)
  | startVote (sv : StartVotePayload)
  | startVoteReply (svr : StartVoteReplyPayload)
  | voteDetails (token : String)
  | ballot (b : Ballot)
  | voteResults (token : String)
  | loadVoteResults (bestBlock : Nat)
  | tokenInventory (bestBlock : Nat)
  | voteSummary (token : String)
  | inventoryReply (ir : InventoryReply)
  | getCommentReply (c : Comment)
  | getCommentsReply (cs : List Comment)
  | commentLikesReply (ls : List LikeComment)
  | proposalCommentsLikesReply (ls : List LikeComment)
  | voteDetailsReply (av : AuthorizeVote) (sv : StartVote)
  | voteResultsReply (sv : StartVote) (cv : List CastVote)
  | tokenInventoryReply (r : TokenInventoryReply)
  | voteSummaryReply (r : VoteSummaryReply)
  | loadVoteResultsReply
deriving DecidableEq

/-! ### Decode functions (the external command codec at its interface) -/

/-- `bitumplugin.DecodeNewComment`. -/
def decodeNewComment : Payload → Option NewCommentPayload
  | .newComment nc => some nc
  | _ => none

/-- `bitumplugin.DecodeNewCommentReply`. -/
def decodeNewCommentReply : Payload → Option NewCommentReplyPayload
  | .newCommentReply ncr => some ncr
  | _ => none

/-- `bitumplugin.DecodeLikeComment`. -/
def decodeLikeComment : Payload → Option LikeCommentPayload
  | .likeComment lc => some lc
  | _ => none

/-- `bitumplugin.DecodeCensorComment`. -/
def decodeCensorComment : Payload → Option CensorCommentPayload
  | .censorComment cc => some cc
  | _ => none

/-- `bitumplugin.DecodeGetComment`. -/
def decodeGetComment : Payload → Option GetCommentPayload
  | .getComment gc => some gc
  | _ => none

/-- `bitumplugin.DecodeGetComments`. -/
def decodeGetComments : Payload → Option String
  | .getComments t => some t
  | _ => none

/-- `bitumplugin.DecodeCommentLikes`. -/
def decodeCommentLikes : Payload → Option CommentLikesPayload
  | .commentLikes cl => some cl
  | _ => none

/-- `bitumplugin.DecodeGetProposalCommentsLikes`. -/
def decodeProposalCommentsLikes : Payload → Option String
  | .proposalCommentsLikes t => some t
  | _ => none

/-- `bitumplugin.DecodeAuthorizeVote`. -/
def decodeAuthorizeVote : Payload → Option AuthorizeVotePayload
  | .authorizeVote av => some av
  | _ => none

/-- `bitumplugin.DecodeAuthorizeVoteReply`. -/
def decodeAuthorizeVoteReply : Payload → Option AuthorizeVoteReplyPayload
  | .authorizeVoteReply avr => some avr
  | _ => none

/-- `bitumplugin.DecodeStartVote`. -/
def decodeStartVote : Payload → Option StartVotePayload
  | .startVote sv => some sv
  | _ => none

/-- `bitumplugin.DecodeStartVoteReply`. -/
def decodeStartVoteReply : Payload → Option StartVoteReplyPayload
  | .startVoteReply svr => some svr
  | _ => none

/-- `bitumplugin.DecodeVoteDetails`. -/
def decodeVoteDetails : Payload → Option String
  | .voteDetails t => some t
  | _ => none

/-- `bitumplugin.DecodeBallot`. -/
def decodeBallot : Payload → Option Ballot
  | .ballot b => some b
  | _ => none

/-- `bitumplugin.DecodeVoteResults` (query payload of cmdProposalVotes). -/
def decodeVoteResults : Payload → Option String
  | .voteResults t => some t
  | _ => none

/-- `bitumplugin.DecodeLoadVoteResults`. -/
def decodeLoadVoteResults : Payload → Option Nat
  | .loadVoteResults b => some b
  | _ => none

/-- `bitumplugin.DecodeTokenInventory`. -/
def decodeTokenInventory : Payload → Option Nat
  | .tokenInventory b => some b
  | _ => none

/-- `bitumplugin.DecodeVoteSummary`. -/
def decodeVoteSummary : Payload → Option String
  | .voteSummary t => some t
  | _ => none

/-- `bitumplugin.DecodeInventoryReply` (Build's snapshot payload). -/
def decodeInventoryReply : Payload → Option InventoryReply
  | .inventoryReply ir => some ir
  | _ => none

/-! ### Converters (convert.go, not in src/) -/

/-- Modelled from the spec: `convertNewCommentFromBitum` — the cache row for
a new-comment command and its reply; key = token + commentID (§3). -/
def convertNewCommentFromBitum (nc : NewCommentPayload)
    (ncr : NewCommentReplyPayload) : Comment :=
  { key := nc.token ++ ncr.commentID
    token := nc.token
    commentID := ncr.commentID
    parentID := nc.parentID
    author := nc.author
    comment := nc.comment
    timestamp := ncr.timestamp
    censored := false
    upVotes := 0
    downVotes := 0 }

/-- Modelled from the spec: `convertCommentFromBitum` (snapshot replay). -/
def convertCommentFromBitum (c : WireComment) : Comment :=
  { key := c.token ++ c.commentID
    token := c.token
    commentID := c.commentID
    parentID := c.parentID
    author := c.author
    comment := c.comment
    timestamp := c.timestamp
    censored := c.censored
    upVotes := c.upVotes
    downVotes := c.downVotes }

/-- Modelled from the spec: `convertLikeCommentFromBitum`. -/
def convertLikeCommentFromBitum (lc : LikeCommentPayload) : LikeComment :=
  { token := lc.token
    commentID := lc.commentID
    author := lc.author
    action := lc.action
    timestamp := lc.timestamp }

/-- Modelled from the spec: `convertAuthorizeVoteFromBitum` — key is
token + decimal record version (§3 and bitum.go line 377). -/
def convertAuthorizeVoteFromBitum (av : AuthorizeVotePayload)
    (avr : AuthorizeVoteReplyPayload) (v : Nat) : AuthorizeVote :=
  { key := av.token ++ formatUint10 v
    token := av.token
    version := v
    action := av.action
    receipt := avr.receipt }

/-- Modelled from the spec: `convertStartVoteFromBitum` — the eligible
tickets of the reply are comma-joined into one string (§3, §4.4). -/
def convertStartVoteFromBitum (sv : StartVotePayload)
    (svr : StartVoteReplyPayload) (endHeight : Nat) : StartVote :=
  { token := sv.token
    options := sv.options.map (fun o =>
      { token := sv.token, id := o.id, description := o.description
        bits := o.bits })
    endHeight := endHeight
    eligibleTickets := joinComma svr.eligibleTickets
    eligibleTicketCount := svr.eligibleTickets.length
    quorumPercentage := sv.quorumPercentage
    passPercentage := sv.passPercentage }

/-- Modelled from the spec: `convertCastVoteFromBitum` — the tokenVoteBit
column concatenates token and vote bit (bitum.go line 923). -/
def convertCastVoteFromBitum (v : CastVotePayload) : CastVote :=
  { token := v.token
    ticket := v.ticket
    voteBit := v.voteBit
    tokenVoteBit := v.token ++ v.voteBit }

/-- Modelled from the spec: `convertVoteOptionResultsToBitum`. -/
def convertVoteOptionResultsToBitum (rs : List VoteOptionResult) :
    List VoteOptionResultReply :=
  rs.map (fun r =>
    { id := r.option.id, description := r.option.description
      bits := r.option.bits, votes := r.votes })

/-- gorm zero value of AuthorizeVote (left untouched when a lookup finds no
row). -/
def avZero : AuthorizeVote :=
  { key := "", token := "", version := 0, action := "", receipt := "" }

/-- gorm zero value of StartVote. -/
def svZero : StartVote :=
  { token := "", options := [], endHeight := 0, eligibleTickets := []
    eligibleTicketCount := 0, quorumPercentage := 0, passPercentage := 0 }

/-- The outcome of one plugin command: the store afterwards, the remaining
fault script, the reply payload and the error, mirroring the Go
`(string, error)` pair (both can be set at once). -/
structure CmdResult where
  db : DB
  faults : List Bool
  reply : Payload
  err : Option Err
deriving DecidableEq

/-! ### Insert primitives and mutation handlers (bitum.go lines 46-451) -/

/-- `newComment`: insert a Comment row (`db.Create`). -/
def newComment (db : DB) (c : Comment) (fs : List Bool) :
    DB × List Bool × Option Err :=
  if (takeFault fs).1 = true then (db, (takeFault fs).2, some .sqlError)
  else ({ db with comments := db.comments ++ [c] }, (takeFault fs).2, none)

/-- `cmdNewComment` (bitum.go line 55): decode both payloads, convert and
insert; the reply payload is returned together with the insert error. -/
def cmdNewComment (db : DB) (cmdPayload replyPayload : Payload)
    (fs : List Bool) : CmdResult :=
  match decodeNewComment cmdPayload with
  | none => ⟨db, fs, .raw "", some .decodeFailed⟩
  | some nc =>
  match decodeNewCommentReply replyPayload with
  | none => ⟨db, fs, .raw "", some .decodeFailed⟩
  | some ncr =>
    let c := convertNewCommentFromBitum nc ncr
    match newComment db c fs with
    | (db1, fs1, e) => ⟨db1, fs1, replyPayload, e⟩

/-- `newLikeComment`: insert a LikeComment row. -/
def newLikeComment (db : DB) (lc : LikeComment) (fs : List Bool) :
    DB × List Bool × Option Err :=
  if (takeFault fs).1 = true then (db, (takeFault fs).2, some .sqlError)
  else ({ db with commentLikes := db.commentLikes ++ [lc] },
        (takeFault fs).2, none)

/-- `cmdLikeComment` (bitum.go line 82). -/
def cmdLikeComment (db : DB) (cmdPayload replyPayload : Payload)
    (fs : List Bool) : CmdResult :=
  match decodeLikeComment cmdPayload with
  | none => ⟨db, fs, .raw "", some .decodeFailed⟩
  | some dlc =>
    let lc := convertLikeCommentFromBitum dlc
    match newLikeComment db lc fs with
    | (db1, fs1, e) => ⟨db1, fs1, replyPayload, e⟩

/-- The in-place update a censor applies to a matching comment row: message
text cleared, censored set (bitum.go lines 109-113). -/
def censorOne (key : String) (c : Comment) : Comment :=
  if c.key == key then { c with comment := "", censored := true } else c

/-- `cmdCensorComment` (bitum.go line 98): one `Updates` statement on the
rows whose primary key equals token + commentID; zero matched rows is not
an error. -/
def cmdCensorComment (db : DB) (cmdPayload replyPayload : Payload)
    (fs : List Bool) : CmdResult :=
  match decodeCensorComment cmdPayload with
  | none => ⟨db, fs, .raw "", some .decodeFailed⟩
  | some cc =>
    let key := cc.token ++ cc.commentID
    if (takeFault fs).1 = true then
      ⟨db, (takeFault fs).2, replyPayload, some .sqlError⟩
    else
      ⟨{ db with comments := db.comments.map (censorOne key) },
       (takeFault fs).2, replyPayload, none⟩

/-- `cmdGetComment` (bitum.go line 119): single-row lookup by key; a miss
becomes `cache.ErrRecordNotFound`. -/
def cmdGetComment (db : DB) (payload : Payload) : Payload × Option Err :=
  match decodeGetComment payload with
  | none => (.raw "", some .decodeFailed)
  | some gc =>
    match db.comments.find? (fun c => c.key == gc.token ++ gc.commentID) with
    | none => (.raw "", some .recordNotFound)
    | some c => (.getCommentReply c, none)

/-- `cmdGetComments` (bitum.go line 150): all comments of a token (a slice
query; an empty result is not an error). -/
def cmdGetComments (db : DB) (payload : Payload) : Payload × Option Err :=
  match decodeGetComments payload with
  | none => (.raw "", some .decodeFailed)
  | some t =>
    (.getCommentsReply (db.comments.filter (fun c => c.token == t)), none)

/-- `cmdCommentLikes` (bitum.go line 184): all likes of one comment. -/
def cmdCommentLikes (db : DB) (payload : Payload) : Payload × Option Err :=
  match decodeCommentLikes payload with
  | none => (.raw "", some .decodeFailed)
  | some cl =>
    (.commentLikesReply (db.commentLikes.filter (fun l =>
       l.token == cl.token && l.commentID == cl.commentID)), none)

/-- `cmdProposalCommentsLikes` (bitum.go line 219): all likes across a
token's comments. -/
def cmdProposalCommentsLikes (db : DB) (payload : Payload) :
    Payload × Option Err :=
  match decodeProposalCommentsLikes payload with
  | none => (.raw "", some .decodeFailed)
  | some t =>
    (.proposalCommentsLikesReply
       (db.commentLikes.filter (fun l => l.token == t)), none)

/-- `newAuthorizeVote` (bitum.go line 258): delete any row with the same
key, then insert the new row; both steps are store writes that can fail. -/
def newAuthorizeVote (db : DB) (av : AuthorizeVote) (fs : List Bool) :
    DB × List Bool × Option Err :=
  if (takeFault fs).1 = true then
    (db, (takeFault fs).2, some (.wrapped "delete authorize vote" .sqlError))
  else
    let fs1 := (takeFault fs).2
    let db1 := { db with authorizeVotes :=
      db.authorizeVotes.filter (fun x => !(x.key == av.key)) }
    if (takeFault fs1).1 = true then
      (db1, (takeFault fs1).2,
       some (.wrapped "create authorize vote" .sqlError))
    else
      ({ db1 with authorizeVotes := db1.authorizeVotes ++ [av] },
       (takeFault fs1).2, none)

/-- `cmdAuthorizeVote` (bitum.go line 278): decode both payloads, parse the
record version, run the delete-then-insert replace in one transaction and
commit; any failure rolls the transaction back. -/
def cmdAuthorizeVote (db : DB) (cmdPayload replyPayload : Payload)
    (fs : List Bool) : CmdResult :=
  match decodeAuthorizeVote cmdPayload with
  | none => ⟨db, fs, .raw "", some .decodeFailed⟩
  | some av =>
  match decodeAuthorizeVoteReply replyPayload with
  | none => ⟨db, fs, .raw "", some .decodeFailed⟩
  | some avr =>
  match parseUint avr.recordVersion with
  | none => ⟨db, fs, .raw "", some (.wrapped "parse version failed" .parseFailed)⟩
  | some v =>
    let a := convertAuthorizeVoteFromBitum av avr v
    match newAuthorizeVote db a fs with
    | (_, fs1, some e) =>
      ⟨db, fs1, .raw "", some (.wrapped "newAuthorizeVote" e)⟩
    | (db1, fs1, none) =>
      if (takeFault fs1).1 = true then
        ⟨db, (takeFault fs1).2, .raw "",
         some (.wrapped "commit transaction" .sqlError)⟩
      else ⟨db1, (takeFault fs1).2, replyPayload, none⟩

/-- `newStartVote` (bitum.go line 317): insert a StartVote row. -/
def newStartVote (db : DB) (sv : StartVote) (fs : List Bool) :
    DB × List Bool × Option Err :=
  if (takeFault fs).1 = true then (db, (takeFault fs).2, some .sqlError)
  else ({ db with startVotes := db.startVotes ++ [sv] }, (takeFault fs).2, none)

/-- `cmdStartVote` (bitum.go line 323): decode both payloads, parse the end
height from the reply and insert the converted row. -/
def cmdStartVote (db : DB) (cmdPayload replyPayload : Payload)
    (fs : List Bool) : CmdResult :=
  match decodeStartVote cmdPayload with
  | none => ⟨db, fs, .raw "", some .decodeFailed⟩
  | some sv =>
  match decodeStartVoteReply replyPayload with
  | none => ⟨db, fs, .raw "", some .decodeFailed⟩
  | some svr =>
  match parseUint svr.endHeight with
  | none => ⟨db, fs, .raw "", some (.wrapped "parse end height" .parseFailed)⟩
  | some endHeight =>
    let s := convertStartVoteFromBitum sv svr endHeight
    match newStartVote db s fs with
    | (_, fs1, some e) => ⟨db, fs1, .raw "", some e⟩
    | (db1, fs1, none) => ⟨db1, fs1, replyPayload, none⟩

/-- Latest-version record lookup
(`Order("records.version desc").Limit(1).Find`): the highest-version row
for a token, if any. -/
def findLatestRecord (db : DB) (t : String) : Option Record :=
  (db.records.filter (fun r => r.token == t)).foldl
    (fun acc r =>
      match acc with
      | none => some r
      | some best => if best.version < r.version then some r else some best)
    none

/-- `cmdVoteDetails` (bitum.go line 352).  NOTE bitum.go line 357: a decode
failure returns `"", nil` — the decode error is dropped and an empty reply
is returned with a nil error. -/
def cmdVoteDetails (db : DB) (payload : Payload) : Payload × Option Err :=
  match decodeVoteDetails payload with
  | none => (.raw "", none)
  | some t =>
    match findLatestRecord db t with
    | none => (.raw "", some .recordNotFound)
    | some r =>
      let key := t ++ formatUint10 r.version
      let av := (db.authorizeVotes.find? (fun a => a.key == key)).getD avZero
      let sv := (db.startVotes.find? (fun s => s.token == t)).getD svZero
      (.voteDetailsReply av sv, none)

/-- `newCastVote` (bitum.go line 420): insert a CastVote row. -/
def newCastVote (db : DB) (cv : CastVote) (fs : List Bool) :
    DB × List Bool × Option Err :=
  if (takeFault fs).1 = true then (db, (takeFault fs).2, some .sqlError)
  else ({ db with castVotes := db.castVotes ++ [cv] }, (takeFault fs).2, none)

/-- The insert loop of `cmdNewBallot`: one `newCastVote` per ballot entry,
stopping at the first failure. -/
def ballotInsertLoop (db : DB) (vs : List CastVotePayload) (fs : List Bool) :
    DB × List Bool × Option Err :=
  match vs with
  | [] => (db, fs, none)
  | v :: rest =>
    match newCastVote db (convertCastVoteFromBitum v) fs with
    | (_, fs1, some e) => (db, fs1, some e)
    | (db1, fs1, none) => ballotInsertLoop db1 rest fs1

/-- `cmdNewBallot` (bitum.go line 426): all CastVote inserts of a ballot run
in one transaction; the first failing insert rolls the whole batch back and
its error is returned; otherwise the transaction commits and the reply
payload is echoed. -/
def cmdNewBallot (db : DB) (cmdPayload replyPayload : Payload)
    (fs : List Bool) : CmdResult :=
  match decodeBallot cmdPayload with
  | none => ⟨db, fs, .raw "", some .decodeFailed⟩
  | some b =>
    match ballotInsertLoop db b.votes fs with
    | (_, fs1, some e) => ⟨db, fs1, .raw "", some e⟩
    | (db1, fs1, none) =>
      if (takeFault fs1).1 = true then
        ⟨db, (takeFault fs1).2, .raw "",
         some (.wrapped "commit transaction failed" .sqlError)⟩
      else ⟨db1, (takeFault fs1).2, replyPayload, none⟩

/-- `cmdProposalVotes` (bitum.go line 455): the StartVote (zero value when
missing) and all CastVote rows of a token. -/
def cmdProposalVotes (db : DB) (payload : Payload) : Payload × Option Err :=
  match decodeVoteResults payload with
  | none => (.raw "", some .decodeFailed)
  | some t =>
    let sv := (db.startVotes.find? (fun s => s.token == t)).getD svZero
    let cv := db.castVotes.filter (fun c => c.token == t)
    (.voteResultsReply sv cv, none)

/-- Modelled from the spec: `convertCommentToBitum` (convert.go, not in
src/) — drops the cache key. -/
def convertCommentToBitum (c : Comment) : WireComment :=
  { token := c.token, commentID := c.commentID, parentID := c.parentID
    author := c.author, comment := c.comment, timestamp := c.timestamp
    censored := c.censored, upVotes := c.upVotes, downVotes := c.downVotes }

/-- `cmdInventory` (bitum.go line 510): only the comments are returned. -/
def cmdInventory (db : DB) : Payload × Option Err :=
  (.inventoryReply
    { comments := db.comments.map convertCommentToBitum,
      likeComments := [], authorizeVotes := [], authorizeVoteReplies := [],
      startVoteTuples := [], castVotes := [] }, none)

/-! ### Vote tally engine and token classifier (bitum.go lines 541-963) -/

/-- Descending order by a key: SQL `ORDER BY f(x) DESC`. -/
def keyDesc {α β : Type} [LinearOrder β] (f : α → β) (a b : α) : Prop :=
  f b ≤ f a

instance {α β : Type} [LinearOrder β] (f : α → β) : DecidableRel (keyDesc f) :=
  fun a b => inferInstanceAs (Decidable (f b ≤ f a))

instance {α β : Type} [LinearOrder β] (f : α → β) : IsTotal α (keyDesc f) :=
  ⟨fun a b => le_total (f b) (f a)⟩

instance {α β : Type} [LinearOrder β] (f : α → β) : IsTrans α (keyDesc f) :=
  ⟨fun _ _ _ h1 h2 => le_trans h2 h1⟩

/-- `newVoteResults` (bitum.go line 544): load the StartVote and the cast
votes of a token, tally per option, evaluate quorum and pass thresholds
(computed by the source in float64, see `threshold`), and insert the
VoteResults row with its per-option results.  The per-option vote count —
the Go map `tally[voteBit]` built by incrementing over the cast votes — is
the number of cast votes whose vote bit equals the option's hex bit
string. -/
def newVoteResults (db : DB) (token : String) (fs : List Bool) :
    DB × List Bool × Option Err :=
  match db.startVotes.find? (fun s => s.token == token) with
  | none => (db, fs, some (.wrapped "lookup start vote" .recordNotFound))
  | some sv =>
    let cv := db.castVotes.filter (fun c => c.token == token)
    let results : List VoteOptionResult := sv.options.map (fun v =>
      { key := token ++ formatUint16 v.bits
        votes := (cv.filter (fun c => c.voteBit == formatUint16 v.bits)).length
        option := v })
    let total := (results.map (fun r => r.votes)).sum
    let eligible := eligibleCount sv.eligibleTickets
    let quorum := threshold sv.quorumPercentage eligible
    let pass := threshold sv.passPercentage total
    let approvedVotes := results.foldl
      (fun acc v => if v.option.id == voteOptionIDApproved then v.votes else acc) 0
    let approved := if total < quorum then false
      else if approvedVotes < pass then false else true
    if (takeFault fs).1 = true then
      (db, (takeFault fs).2, some (.wrapped "new vote results" .sqlError))
    else
      ({ db with voteResults := db.voteResults ++
          [{ token := token, approved := approved, results := results }] },
       (takeFault fs).2, none)

/-- The SQL query shared by cmdLoadVoteResults and cmdTokenInventory
(bitum.go lines 648 and 699): tokens of start votes whose end height is at
or before the reference height and that have no vote results row (LEFT
OUTER JOIN with `vote_results.token IS NULL`). -/
def finishedNoResultTokens (db : DB) (best : Nat) : List String :=
  (db.startVotes.filter (fun sv =>
    decide (sv.endHeight ≤ best) &&
    db.voteResults.all (fun vr => !(vr.token == sv.token)))).map
    (fun sv => sv.token)

/-- The materialization loop of `cmdLoadVoteResults` (bitum.go line 668):
one `newVoteResults` per selected token, stopping at the first failure. -/
def loadVoteResultsLoop (db : DB) (ts : List String) (fs : List Bool) :
    DB × List Bool × Option Err :=
  match ts with
  | [] => (db, fs, none)
  | t :: rest =>
    match newVoteResults db t fs with
    | (db1, fs1, some e) => (db1, fs1, some (.wrapped "newVoteResults" e))
    | (db1, fs1, none) => loadVoteResultsLoop db1 rest fs1

/-- `cmdLoadVoteResults` (bitum.go line 638): materialize vote results for
every finished-but-untallied start vote. -/
def cmdLoadVoteResults (db : DB) (payload : Payload) (fs : List Bool) :
    CmdResult :=
  match decodeLoadVoteResults payload with
  | none => ⟨db, fs, .raw "", some .decodeFailed⟩
  | some best =>
    match loadVoteResultsLoop db (finishedNoResultTokens db best) fs with
    | (db1, fs1, some e) => ⟨db1, fs1, .raw "", some e⟩
    | (db1, fs1, none) => ⟨db1, fs1, .loadVoteResultsReply, none⟩

/-- The pre-voting bucket query (bitum.go line 728): latest version of each
public record with no StartVote row, ordered by timestamp descending. -/
def preRecords (db : DB) : List Record :=
  List.insertionSort (keyDesc (fun r : Record => r.timestamp))
    (db.records.filter (fun a =>
      db.records.all (fun b =>
        !(b.token == a.token) || !(decide (a.version < b.version))) &&
      db.startVotes.all (fun sv => !(sv.token == a.token)) &&
      (a.status == recordStatusPublic)))

/-- The active bucket query (bitum.go line 752): start votes whose end
height is strictly greater than the reference height, ordered by end height
descending. -/
def activeStartVotes (db : DB) (best : Nat) : List StartVote :=
  List.insertionSort (keyDesc (fun sv : StartVote => sv.endHeight))
    (db.startVotes.filter (fun sv => decide (best < sv.endHeight)))

/-- The INNER JOIN of vote_results with start_votes filtered on the
approved flag (bitum.go lines 769 and 788). -/
def voteResultsJoin (db : DB) (flag : Bool) :
    List (VoteResults × StartVote) :=
  (db.voteResults.filter (fun vr => vr.approved == flag)).flatMap
    (fun vr => (db.startVotes.filter (fun sv => sv.token == vr.token)).map
      (fun sv => (vr, sv)))

/-- Approved bucket: joined rows ordered by start-vote end height
descending, projected to tokens. -/
def approvedTokens (db : DB) : List String :=
  (List.insertionSort
    (keyDesc (fun p : VoteResults × StartVote => p.2.endHeight))
    (voteResultsJoin db true)).map (fun p => p.1.token)

/-- Rejected bucket (same query with `approved = false`). -/
def rejectedTokens (db : DB) : List String :=
  (List.insertionSort
    (keyDesc (fun p : VoteResults × StartVote => p.2.endHeight))
    (voteResultsJoin db false)).map (fun p => p.1.token)

/-- The abandoned bucket query (bitum.go line 808): records with archived
status, ordered by timestamp descending. -/
def abandonedTokens (db : DB) : List String :=
  (List.insertionSort (keyDesc (fun r : Record => r.timestamp))
    (db.records.filter (fun r => r.status == recordStatusArchived))).map
    (fun r => r.token)

/-- `cmdTokenInventory` (bitum.go line 687): refuse with a not-found error
when any finished start vote has no vote results row; otherwise classify
all tokens into the five buckets. -/
def cmdTokenInventory (db : DB) (payload : Payload) : Payload × Option Err :=
  match decodeTokenInventory payload with
  | none => (.raw "", some .decodeFailed)
  | some best =>
    if 0 < (finishedNoResultTokens db best).length then
      (.raw "", some .recordNotFound)
    else
      (.tokenInventoryReply
        { pre := (preRecords db).map (fun r => r.token)
          active := (activeStartVotes db best).map (fun sv => sv.token)
          approved := approvedTokens db
          rejected := rejectedTokens db
          abandoned := abandonedTokens db }, none)

/-- The `sendReply` tail of cmdVoteSummary (bitum.go line 942): the reply
built from whatever lookups completed; a zero end height renders as "". -/
def voteSummarySendReply (av : AuthorizeVote) (sv : StartVote)
    (results : List VoteOptionResultReply) : Payload :=
  .voteSummaryReply
    { authorized := av.action == authVoteActionAuthorize
      endHeight := if sv.endHeight ≠ 0 then formatUint10 sv.endHeight else ""
      eligibleTicketCount := sv.eligibleTicketCount
      quorumPercentage := sv.quorumPercentage
      passPercentage := sv.passPercentage
      results := results }

/-- `cmdVoteSummary` (bitum.go line 839): the goto chain of optional
lookups — record, authorize vote, start vote, vote results; when no vote
results row exists the per-option counts are taken from the cast-vote
table via the token_vote_bit column. -/
def cmdVoteSummary (db : DB) (payload : Payload) : Payload × Option Err :=
  match decodeVoteSummary payload with
  | none => (.raw "", some .decodeFailed)
  | some t =>
    match findLatestRecord db t with
    | none => (.raw "", some .recordNotFound)
    | some r =>
      let key := t ++ formatUint10 r.version
      match db.authorizeVotes.find? (fun a => a.key == key) with
      | none => (voteSummarySendReply avZero svZero [], none)
      | some av =>
        match db.startVotes.find? (fun s => s.token == t) with
        | none => (voteSummarySendReply av svZero [], none)
        | some sv =>
          match db.voteResults.find? (fun vr => vr.token == t) with
          | some vr =>
            (voteSummarySendReply av sv
              (convertVoteOptionResultsToBitum vr.results), none)
          | none =>
            let results := sv.options.map (fun v =>
              { id := v.id, description := v.description, bits := v.bits
                votes := (db.castVotes.filter (fun c =>
                  c.tokenVoteBit == v.token ++ formatUint16 v.bits)).length })
            (voteSummarySendReply av sv results, none)

/-! ### Command dispatcher (bitum.go line 969) -/

/-- Modelled from the spec: the `bitumplugin.Cmd*` command-name constants
(the bitumplugin package is not in src/; the string values are nominal,
only their distinctness matters for dispatch). -/
def CmdAuthorizeVote : String := "authorizevote"

/-- Modelled from the spec: command-name constant. -/
def CmdStartVote : String := "startvote"

/-- Modelled from the spec: command-name constant. -/
def CmdVoteDetails : String := "votedetails"

/-- Modelled from the spec: command-name constant. -/
def CmdBallot : String := "ballot"

/-- Modelled from the spec: command-name constant. -/
def CmdBestBlock : String := "bestblock"

/-- Modelled from the spec: command-name constant. -/
def CmdNewComment : String := "newcomment"

/-- Modelled from the spec: command-name constant. -/
def CmdLikeComment : String := "likecomment"

/-- Modelled from the spec: command-name constant. -/
def CmdCensorComment : String := "censorcomment"

/-- Modelled from the spec: command-name constant. -/
def CmdGetComment : String := "getcomment"

/-- Modelled from the spec: command-name constant. -/
def CmdGetComments : String := "getcomments"

/-- Modelled from the spec: command-name constant. -/
def CmdProposalVotes : String := "proposalvotes"

/-- Modelled from the spec: command-name constant. -/
def CmdCommentLikes : String := "commentlikes"

/-- Modelled from the spec: command-name constant. -/
def CmdProposalCommentsLikes : String := "proposalcommentslikes"

/-- Modelled from the spec: command-name constant. -/
def CmdInventory : String := "inventory"

/-- Modelled from the spec: command-name constant. -/
def CmdLoadVoteResults : String := "loadvoteresults"

/-- Modelled from the spec: command-name constant. -/
def CmdTokenInventory : String := "tokeninventory"

/-- Modelled from the spec: command-name constant. -/
def CmdVoteSummary : String := "votesummary"

/-- Lift a read-only handler result into a command result: queries touch
neither the store nor the fault script. -/
def liftQuery (db : DB) (fs : List Bool) (r : Payload × Option Err) :
    CmdResult :=
  ⟨db, fs, r.1, r.2⟩

/-- `Exec` (bitum.go line 969): route a command name to its handler; write
commands receive both payloads, read commands only the command payload;
unknown commands fail with `cache.ErrInvalidPluginCmd`. -/
def Exec (db : DB) (cmd : String) (cmdPayload replyPayload : Payload)
    (fs : List Bool) : CmdResult :=
  if cmd == CmdAuthorizeVote then cmdAuthorizeVote db cmdPayload replyPayload fs
  else if cmd == CmdStartVote then cmdStartVote db cmdPayload replyPayload fs
  else if cmd == CmdVoteDetails then liftQuery db fs (cmdVoteDetails db cmdPayload)
  else if cmd == CmdBallot then cmdNewBallot db cmdPayload replyPayload fs
  else if cmd == CmdBestBlock then ⟨db, fs, .raw "", none⟩
  else if cmd == CmdNewComment then cmdNewComment db cmdPayload replyPayload fs
  else if cmd == CmdLikeComment then cmdLikeComment db cmdPayload replyPayload fs
  else if cmd == CmdCensorComment then cmdCensorComment db cmdPayload replyPayload fs
  else if cmd == CmdGetComment then liftQuery db fs (cmdGetComment db cmdPayload)
  else if cmd == CmdGetComments then liftQuery db fs (cmdGetComments db cmdPayload)
  else if cmd == CmdProposalVotes then liftQuery db fs (cmdProposalVotes db cmdPayload)
  else if cmd == CmdCommentLikes then liftQuery db fs (cmdCommentLikes db cmdPayload)
  else if cmd == CmdProposalCommentsLikes then liftQuery db fs (cmdProposalCommentsLikes db cmdPayload)
  else if cmd == CmdInventory then liftQuery db fs (cmdInventory db)
  else if cmd == CmdLoadVoteResults then cmdLoadVoteResults db cmdPayload fs
  else if cmd == CmdTokenInventory then liftQuery db fs (cmdTokenInventory db cmdPayload)
  else if cmd == CmdVoteSummary then liftQuery db fs (cmdVoteSummary db cmdPayload)
  else ⟨db, fs, .raw "", some .invalidPluginCmd⟩

/-! ### Rebuild engine (bitum.go lines 1012-1257) -/

/-- `dropTables` (bitum.go line 1095): drop the eight plugin tables (one
`DropTableIfExists` statement — here clearing all plugin lists) and delete
the plugin's version record; both are store writes that can fail. -/
def dropTables (db : DB) (fs : List Bool) : DB × List Bool × Option Err :=
  if (takeFault fs).1 = true then (db, (takeFault fs).2, some .sqlError)
  else
    let fs1 := (takeFault fs).2
    let db1 := { db with comments := [], commentLikes := [], castVotes := []
                         authorizeVotes := [], startVotes := []
                         voteResults := [] }
    if (takeFault fs1).1 = true then (db1, (takeFault fs1).2, some .sqlError)
    else
      ({ db1 with versions :=
          db1.versions.filter (fun v => !(v.id == bitumpluginID)) },
       (takeFault fs1).2, none)

/-- `createTables` (bitum.go line 1017): recreate the plugin tables (the
eight CreateTable DDL statements folded into one faultable step, since the
model's tables always exist as lists) and insert a version record when
none exists for the plugin ID.  The source stamps `time.Now().Unix()`;
wall-clock time is modelled as 0. -/
def createTables (db : DB) (fs : List Bool) : DB × List Bool × Option Err :=
  if (takeFault fs).1 = true then (db, (takeFault fs).2, some .sqlError)
  else
    let fs1 := (takeFault fs).2
    match db.versions.find? (fun v => v.id == bitumpluginID) with
    | some _ => (db, fs1, none)
    | none =>
      if (takeFault fs1).1 = true then (db, (takeFault fs1).2, some .sqlError)
      else
        ({ db with versions :=
            db.versions ++ [⟨bitumpluginID, bitumVersion, 0⟩] },
         (takeFault fs1).2, none)

/-- The comments replay loop of `build` (bitum.go line 1144). -/
def buildCommentsLoop (db : DB) (cs : List WireComment) (fs : List Bool) :
    DB × List Bool × Option Err :=
  match cs with
  | [] => (db, fs, none)
  | c :: rest =>
    match newComment db (convertCommentFromBitum c) fs with
    | (db1, fs1, some e) => (db1, fs1, some (.wrapped "newComment" e))
    | (db1, fs1, none) => buildCommentsLoop db1 rest fs1

/-- The like-comments replay loop of `build` (bitum.go line 1155). -/
def buildLikeCommentsLoop (db : DB) (ls : List LikeCommentPayload)
    (fs : List Bool) : DB × List Bool × Option Err :=
  match ls with
  | [] => (db, fs, none)
  | l :: rest =>
    match newLikeComment db (convertLikeCommentFromBitum l) fs with
    | (db1, fs1, some e) => (db1, fs1, some (.wrapped "newLikeComment" e))
    | (db1, fs1, none) => buildLikeCommentsLoop db1 rest fs1

/-- The receipt-indexed map of authorize-vote replies (bitum.go line 1165):
a later reply with the same receipt overwrites an earlier one. -/
def lookupAVR (replies : List AuthorizeVoteReplyPayload) (receipt : String) :
    Option AuthorizeVoteReplyPayload :=
  (replies.filter (fun r => r.receipt == receipt)).getLast?

/-- The authorize-votes replay loop of `build` (bitum.go line 1173): each
request is matched to its reply by receipt; a missing reply or an
unparsable record version aborts the replay. -/
def buildAuthorizeVotesLoop (db : DB) (avs : List AuthorizeVotePayload)
    (replies : List AuthorizeVoteReplyPayload) (fs : List Bool) :
    DB × List Bool × Option Err :=
  match avs with
  | [] => (db, fs, none)
  | v :: rest =>
    match lookupAVR replies v.receipt with
    | none => (db, fs, some (.msg "AuthorizeVoteReply not found"))
    | some r =>
      match parseUint r.recordVersion with
      | none => (db, fs, some (.wrapped "parse version failed" .parseFailed))
      | some rv =>
        match newAuthorizeVote db (convertAuthorizeVoteFromBitum v r rv) fs with
        | (db1, fs1, some e) => (db1, fs1, some (.wrapped "newAuthorizeVote" e))
        | (db1, fs1, none) => buildAuthorizeVotesLoop db1 rest replies fs1

/-- The start-votes replay loop of `build` (bitum.go line 1197): each start
vote is paired with its reply and the end height parsed from the reply. -/
def buildStartVotesLoop (db : DB) (ts : List StartVoteTuple)
    (fs : List Bool) : DB × List Bool × Option Err :=
  match ts with
  | [] => (db, fs, none)
  | v :: rest =>
    match parseUint v.startVoteReply.endHeight with
    | none => (db, fs, some (.wrapped "parse end height" .parseFailed))
    | some eh =>
      match newStartVote db
          (convertStartVoteFromBitum v.startVote v.startVoteReply eh) fs with
      | (db1, fs1, some e) => (db1, fs1, some (.wrapped "newStartVote" e))
      | (db1, fs1, none) => buildStartVotesLoop db1 rest fs1

/-- The cast-votes replay loop of `build` (bitum.go line 1216). -/
def buildCastVotesLoop (db : DB) (vs : List CastVotePayload)
    (fs : List Bool) : DB × List Bool × Option Err :=
  match vs with
  | [] => (db, fs, none)
  | v :: rest =>
    match newCastVote db (convertCastVoteFromBitum v) fs with
    | (db1, fs1, some e) => (db1, fs1, some (.wrapped "newCastVote" e))
    | (db1, fs1, none) => buildCastVotesLoop db1 rest fs1

/-- `build` (bitum.go line 1115): drop and recreate the plugin tables (each
in its own committed transaction), then replay the snapshot in the fixed
order comments, like comments, authorize votes, start votes, cast votes.
The replay is not transactional: a failure partway leaves the partially
built store behind. -/
def build (db : DB) (ir : InventoryReply) (fs : List Bool) :
    DB × List Bool × Option Err :=
  match dropTables db fs with
  | (_, fs1, some e) => (db, fs1, some (.wrapped "drop tables" e))
  | (db1, fs1, none) =>
    if (takeFault fs1).1 = true then (db, (takeFault fs1).2, some .sqlError)
    else
    match createTables db1 (takeFault fs1).2 with
    | (_, fs2, some e) => (db1, fs2, some (.wrapped "create tables" e))
    | (db2, fs2, none) =>
      if (takeFault fs2).1 = true then (db1, (takeFault fs2).2, some .sqlError)
      else
      match buildCommentsLoop db2 ir.comments (takeFault fs2).2 with
      | (db3, fs3, some e) => (db3, fs3, some e)
      | (db3, fs3, none) =>
      match buildLikeCommentsLoop db3 ir.likeComments fs3 with
      | (db4, fs4, some e) => (db4, fs4, some e)
      | (db4, fs4, none) =>
      match buildAuthorizeVotesLoop db4 ir.authorizeVotes
          ir.authorizeVoteReplies fs4 with
      | (db5, fs5, some e) => (db5, fs5, some e)
      | (db5, fs5, none) =>
      match buildStartVotesLoop db5 ir.startVoteTuples fs5 with
      | (db6, fs6, some e) => (db6, fs6, some e)
      | (db6, fs6, none) => buildCastVotesLoop db6 ir.castVotes fs6

/-- The outcome of `Build`: success, an error returned to the caller, or a
process halt (the Go `panic` of bitum.go line 1251). -/
inductive BuildResult where
  | ok
  | err (e : Err)
  | panicked
deriving DecidableEq

/-- `Build` (bitum.go line 1231): decode the snapshot and rebuild; if the
rebuild fails, delete the plugin's version record so the next startup is
forced to rebuild and return the original error; if that deletion also
fails, panic. -/
def Build (db : DB) (payload : Payload) (fs : List Bool) : DB × BuildResult :=
  match decodeInventoryReply payload with
  | none => (db, .err (.wrapped "DecodeInventoryReply" .decodeFailed))
  | some ir =>
    match build db ir fs with
    | (db1, _, none) => (db1, .ok)
    | (db1, fs1, some e) =>
      if (takeFault fs1).1 = true then (db1, .panicked)
      else
        ({ db1 with versions :=
            db1.versions.filter (fun v => !(v.id == bitumpluginID)) },
         .err e)

/-! ## Claim theorems -/

/-- Go `strings.Split` always returns one more field than there are
separators. -/
theorem splitComma_length (s : List Char) :
    (splitComma s).length = s.count ',' + 1 := by
  induction s with
  | nil => simp [splitComma]
  | cons c rest ih =>
    by_cases hc : c = ','
    · simp [splitComma, hc, List.count_cons, ih]
    · rcases hr : splitComma rest with _ | ⟨x, xs⟩
      · rw [hr] at ih; simp at ih
      · rw [hr] at ih
        simp only [splitComma, hc, if_neg hc, hr, List.count_cons]
        simp only [List.length_cons] at ih ⊢
        have : (c == ',') = false := by simp [hc]
        simp [this, ih]

/-- C9: the eligible-ticket count used by `newVoteResults` — the length of
`strings.Split(sv.EligibleTickets, ",")`, here `eligibleCount` — is 1 on
the empty string (not 0), and in general is the number of comma separators
plus one, hence at least 1 for every stored string: the quorum computation
never sees zero eligible tickets. -/
theorem eligibleCount_never_zero :
    eligibleCount [] = 1 ∧
    ∀ s : List Char, eligibleCount s = s.count ',' + 1 ∧ 1 ≤ eligibleCount s := by
  refine ⟨rfl, fun s => ⟨splitComma_length s, ?_⟩⟩
  rw [eligibleCount, splitComma_length]
  omega

/-- C8: the dispatcher forwards handler errors unchanged, but the
vote-details handler itself violates the propagation contract: on a
malformed (undecodable) payload, `cmdVoteDetails` returns `"", nil`
(bitum.go line 357) — the decode error is swallowed and `Exec` reports
success with an empty reply instead of a non-nil decode error. -/
theorem cmdVoteDetails_swallows_decode_error :
    Exec emptyDB CmdVoteDetails (.raw "malformed") (.raw "") [] =
      ⟨emptyDB, [], .raw "", none⟩ := by decide

/-- C10: a censor-comment command whose token + commentID key matches no
existing comment succeeds (nil error), echoes the reply payload, and leaves
the store unchanged: the zero-rows `Updates` is not reported. -/
theorem cmdCensorComment_missing_key (db : DB) (cc : CensorCommentPayload)
    (reply : Payload)
    (h : ∀ c ∈ db.comments, c.key ≠ cc.token ++ cc.commentID) :
    cmdCensorComment db (.censorComment cc) reply [] = ⟨db, [], reply, none⟩ := by
  have hmap : db.comments.map (censorOne (cc.token ++ cc.commentID)) =
      db.comments := by
    have h1 : ∀ c ∈ db.comments,
        censorOne (cc.token ++ cc.commentID) c = id c := by
      intro c hc
      have hkey : (c.key == cc.token ++ cc.commentID) = false := by
        simp [h c hc]
      simp [censorOne, hkey]
    rw [List.map_congr_left h1, List.map_id]
  simp [cmdCensorComment, decodeCensorComment, takeFault, hmap]

/-- Witness for C10 at a concrete store with no matching comment. -/
theorem cmdCensorComment_missing_key_witness :
    (∀ c ∈ emptyDB.comments, c.key ≠ "tok" ++ "1") ∧
    cmdCensorComment emptyDB (.censorComment ⟨"tok", "1"⟩) (.raw "r") [] =
      ⟨emptyDB, [], .raw "r", none⟩ :=
  ⟨by simp [emptyDB], cmdCensorComment_missing_key emptyDB ⟨"tok", "1"⟩
    (.raw "r") (by simp [emptyDB])⟩

/-- Censoring is idempotent on a single row. -/
theorem censorOne_idem (k : String) (c : Comment) :
    censorOne k (censorOne k c) = censorOne k c := by
  by_cases h : (c.key == k) = true <;> simp [censorOne, h]

/-- What C6 asserts of a successful censor-comment outcome `r` for key
`cc.token ++ cc.commentID`: the reply is echoed, every table other than
comments is untouched, the comment list keeps its length, each comment
keeps its key and all fields other than the message text and the censored
flag (in particular the up/down vote counts), the matching comment gets an
empty message and `censored = true`, non-matching comments are unchanged,
and censoring a second time leaves the store as it is. -/
def censorFrameSpec (db : DB) (cc : CensorCommentPayload) (reply : Payload)
    (r : CmdResult) : Prop :=
  r.reply = reply ∧
  r.db = { db with comments := r.db.comments } ∧
  r.db.comments.length = db.comments.length ∧
  (∀ i (hi : i < db.comments.length) (hi2 : i < r.db.comments.length),
    ((r.db.comments.get ⟨i, hi2⟩).key = (db.comments.get ⟨i, hi⟩).key ∧
     (r.db.comments.get ⟨i, hi2⟩).token = (db.comments.get ⟨i, hi⟩).token ∧
     (r.db.comments.get ⟨i, hi2⟩).commentID =
       (db.comments.get ⟨i, hi⟩).commentID ∧
     (r.db.comments.get ⟨i, hi2⟩).parentID =
       (db.comments.get ⟨i, hi⟩).parentID ∧
     (r.db.comments.get ⟨i, hi2⟩).author = (db.comments.get ⟨i, hi⟩).author ∧
     (r.db.comments.get ⟨i, hi2⟩).timestamp =
       (db.comments.get ⟨i, hi⟩).timestamp ∧
     (r.db.comments.get ⟨i, hi2⟩).upVotes =
       (db.comments.get ⟨i, hi⟩).upVotes ∧
     (r.db.comments.get ⟨i, hi2⟩).downVotes =
       (db.comments.get ⟨i, hi⟩).downVotes) ∧
    ((db.comments.get ⟨i, hi⟩).key = cc.token ++ cc.commentID →
      (r.db.comments.get ⟨i, hi2⟩).comment = "" ∧
      (r.db.comments.get ⟨i, hi2⟩).censored = true) ∧
    ((db.comments.get ⟨i, hi⟩).key ≠ cc.token ++ cc.commentID →
      r.db.comments.get ⟨i, hi2⟩ = db.comments.get ⟨i, hi⟩)) ∧
  cmdCensorComment r.db (.censorComment cc) reply [] = ⟨r.db, [], reply, none⟩

/-- C6: a successful censor-comment command only clears the message text
and sets the censored flag of the comments matching its key, keeps
identity and vote counts and every other table intact, and a second censor
of the same comment leaves the observable state unchanged. -/
theorem cmdCensorComment_censors (db : DB) (cc : CensorCommentPayload)
    (reply : Payload) (fs : List Bool) (r : CmdResult)
    (hr : cmdCensorComment db (.censorComment cc) reply fs = r)
    (h : r.err = none) : censorFrameSpec db cc reply r := by
  rcases hb : (takeFault fs).1 with _ | _
  case true =>
    rw [show cmdCensorComment db (.censorComment cc) reply fs =
      ⟨db, (takeFault fs).2, reply, some .sqlError⟩ by
        simp [cmdCensorComment, decodeCensorComment, hb]] at hr
    rw [← hr] at h
    simp at h
  case false =>
    rw [show cmdCensorComment db (.censorComment cc) reply fs =
      ⟨{ db with comments :=
          db.comments.map (censorOne (cc.token ++ cc.commentID)) },
        (takeFault fs).2, reply, none⟩ by
        simp [cmdCensorComment, decodeCensorComment, hb]] at hr
    subst hr
    refine ⟨rfl, rfl, by simp, ?_, ?_⟩
    · intro i hi hi2
      simp only [List.get_eq_getElem, List.getElem_map]
      refine ⟨?_, ?_, ?_⟩
      · by_cases hk : (db.comments[i]).key = cc.token ++ cc.commentID <;>
          simp [censorOne, hk]
      · intro hk; simp [censorOne, hk]
      · intro hk
        have : ((db.comments[i]).key == cc.token ++ cc.commentID) = false := by
          simp [hk]
        simp [censorOne, this]
    · have hmm : (db.comments.map (censorOne (cc.token ++ cc.commentID))).map
          (censorOne (cc.token ++ cc.commentID)) =
          db.comments.map (censorOne (cc.token ++ cc.commentID)) := by
        rw [List.map_map]
        exact List.map_congr_left fun c _ => censorOne_idem _ c
      simp [cmdCensorComment, decodeCensorComment, takeFault, hmm]

/-- A successful ballot insert loop appends exactly the converted votes. -/
theorem ballotInsertLoop_ok (vs : List CastVotePayload) (db : DB)
    (fs fs' : List Bool) (db' : DB)
    (h : ballotInsertLoop db vs fs = (db', fs', none)) :
    db' = { db with castVotes :=
      db.castVotes ++ vs.map convertCastVoteFromBitum } := by
  induction vs generalizing db fs with
  | nil =>
    simp only [ballotInsertLoop] at h
    injection h with h1 h2
    rw [← h1]
    simp
  | cons v rest ih =>
    rcases hb : (takeFault fs).1 with _ | _
    case true =>
      simp [ballotInsertLoop, newCastVote, hb] at h
    case false =>
      simp only [ballotInsertLoop, newCastVote, hb, Bool.false_eq_true,
        if_false] at h
      have := ih _ _ h
      rw [this]
      simp [List.append_assoc]

/-- A fault among the first `vs.length` script entries makes the ballot
insert loop fail with the raw store error. -/
theorem ballotInsertLoop_fault (vs : List CastVotePayload) (db : DB)
    (fs : List Bool) (h : ∃ x ∈ fs.take vs.length, x = true) :
    (ballotInsertLoop db vs fs).2.2 = some Err.sqlError := by
  induction vs generalizing db fs with
  | nil => simp at h
  | cons v rest ih =>
    rcases fs with _ | ⟨b, fsr⟩
    · simp at h
    · rcases b with _ | _
      case false =>
        have hrest : ∃ x ∈ fsr.take rest.length, x = true := by
          simpa using h
        simp only [ballotInsertLoop, newCastVote, takeFault]
        simpa using ih _ _ hrest
      case true =>
        simp [ballotInsertLoop, newCastVote, takeFault]

/-- What C7 asserts of a cast-ballot outcome `r`: on success the reply
payload is echoed unchanged and exactly the converted CastVote rows are
appended; on any error no row of the ballot is visible (the transaction is
rolled back); and a fault injected into any of the ballot's inserts
surfaces as the underlying store error, unwrapped. -/
def ballotSpec (db : DB) (b : Ballot) (reply : Payload) (fs : List Bool)
    (r : CmdResult) : Prop :=
  (r.err = none → r.reply = reply ∧
    r.db = { db with castVotes :=
      db.castVotes ++ b.votes.map convertCastVoteFromBitum }) ∧
  (r.err ≠ none → r.db = db) ∧
  ((∃ x ∈ fs.take b.votes.length, x = true) → r.err = some Err.sqlError)

/-- C7: cmdNewBallot inserts all CastVote rows of a ballot in one
transaction — a failing insert rolls the whole batch back, leaves no row
visible and returns the underlying error; when every insert and the commit
succeed, the input reply payload is returned unchanged. -/
theorem cmdNewBallot_atomic (db : DB) (b : Ballot) (reply : Payload)
    (fs : List Bool) (r : CmdResult)
    (hr : cmdNewBallot db (.ballot b) reply fs = r) :
    ballotSpec db b reply fs r := by
  rcases hl : ballotInsertLoop db b.votes fs with ⟨dbL, fsL, oe⟩
  rcases oe with _ | e
  · -- insert loop succeeded
    rcases hb : (takeFault fsL).1 with _ | _
    case true =>
      rw [show cmdNewBallot db (.ballot b) reply fs =
          ⟨db, (takeFault fsL).2, .raw "",
            some (.wrapped "commit transaction failed" .sqlError)⟩ by
        simp [cmdNewBallot, decodeBallot, hl, hb]] at hr
      subst hr
      refine ⟨by simp, fun _ => rfl, fun hx => ?_⟩
      have := ballotInsertLoop_fault b.votes db fs hx
      rw [hl] at this
      simp at this
    case false =>
      rw [show cmdNewBallot db (.ballot b) reply fs =
          ⟨dbL, (takeFault fsL).2, reply, none⟩ by
        simp [cmdNewBallot, decodeBallot, hl, hb]] at hr
      subst hr
      refine ⟨fun _ => ⟨rfl, ballotInsertLoop_ok b.votes db fs fsL dbL hl⟩,
        by simp, fun hx => ?_⟩
      have := ballotInsertLoop_fault b.votes db fs hx
      rw [hl] at this
      simp at this
  · -- an insert failed: rollback
    rw [show cmdNewBallot db (.ballot b) reply fs =
        ⟨db, fsL, .raw "", some e⟩ by
      simp [cmdNewBallot, decodeBallot, hl]] at hr
    subst hr
    refine ⟨by simp, fun _ => rfl, fun hx => ?_⟩
    have := ballotInsertLoop_fault b.votes db fs hx
    rw [hl] at this
    simpa using this

/-- Witness for C7: a two-vote ballot applied without injected faults. -/
theorem cmdNewBallot_atomic_witness :
    ballotSpec emptyDB ⟨[⟨"tok", "t1", "1"⟩, ⟨"tok", "t2", "2"⟩]⟩ (.raw "rp")
      []
      (cmdNewBallot emptyDB
        (.ballot ⟨[⟨"tok", "t1", "1"⟩, ⟨"tok", "t2", "2"⟩]⟩) (.raw "rp") []) :=
  cmdNewBallot_atomic emptyDB ⟨[⟨"tok", "t1", "1"⟩, ⟨"tok", "t2", "2"⟩]⟩
    (.raw "rp") [] _ rfl

/-- A successful `newAuthorizeVote` replaces the rows sharing the new
row's key: delete-then-insert. -/
theorem newAuthorizeVote_ok (db : DB) (a : AuthorizeVote)
    (fs fs' : List Bool) (db' : DB)
    (h : newAuthorizeVote db a fs = (db', fs', none)) :
    db' = { db with authorizeVotes :=
      db.authorizeVotes.filter (fun x => !(x.key == a.key)) ++ [a] } := by
  rcases hb1 : (takeFault fs).1 with _ | _
  case true => simp [newAuthorizeVote, hb1] at h
  case false =>
    rcases hb2 : (takeFault (takeFault fs).2).1 with _ | _
    case true => simp [newAuthorizeVote, hb1, hb2] at h
    case false =>
      simp only [newAuthorizeVote, hb1, hb2, Bool.false_eq_true, if_false] at h
      injection h with h1 h2
      rw [← h1]

/-- A successful `cmdAuthorizeVote` parsed the reply's record version and
committed exactly the delete-then-insert replace. -/
theorem cmdAuthorizeVote_ok (db : DB) (av : AuthorizeVotePayload)
    (avr : AuthorizeVoteReplyPayload) (fs : List Bool) (r : CmdResult)
    (hr : cmdAuthorizeVote db (.authorizeVote av) (.authorizeVoteReply avr)
      fs = r) (h : r.err = none) :
    ∃ v, parseUint avr.recordVersion = some v ∧
      r.db = { db with authorizeVotes :=
        db.authorizeVotes.filter (fun x =>
          !(x.key == (convertAuthorizeVoteFromBitum av avr v).key)) ++
        [convertAuthorizeVoteFromBitum av avr v] } := by
  rcases hp : parseUint avr.recordVersion with _ | v
  · rw [show cmdAuthorizeVote db (.authorizeVote av)
        (.authorizeVoteReply avr) fs =
        ⟨db, fs, .raw "", some (.wrapped "parse version failed" .parseFailed)⟩ by
      simp [cmdAuthorizeVote, decodeAuthorizeVote, decodeAuthorizeVoteReply,
        hp]] at hr
    rw [← hr] at h
    simp at h
  · refine ⟨v, rfl, ?_⟩
    rcases hn : newAuthorizeVote db (convertAuthorizeVoteFromBitum av avr v)
        fs with ⟨db1, fs1, oe⟩
    rcases oe with _ | e
    · rcases hb : (takeFault fs1).1 with _ | _
      case true =>
        rw [show cmdAuthorizeVote db (.authorizeVote av)
            (.authorizeVoteReply avr) fs =
            ⟨db, (takeFault fs1).2, .raw "",
              some (.wrapped "commit transaction" .sqlError)⟩ by
          simp [cmdAuthorizeVote, decodeAuthorizeVote,
            decodeAuthorizeVoteReply, hp, hn, hb]] at hr
        rw [← hr] at h
        simp at h
      case false =>
        rw [show cmdAuthorizeVote db (.authorizeVote av)
            (.authorizeVoteReply avr) fs =
            ⟨db1, (takeFault fs1).2, .authorizeVoteReply avr, none⟩ by
          simp [cmdAuthorizeVote, decodeAuthorizeVote,
            decodeAuthorizeVoteReply, hp, hn, hb]] at hr
        rw [← hr]
        exact newAuthorizeVote_ok db _ fs fs1 db1 hn
    · rw [show cmdAuthorizeVote db (.authorizeVote av)
          (.authorizeVoteReply avr) fs =
          ⟨db, fs1, .raw "", some (.wrapped "newAuthorizeVote" e)⟩ by
        simp [cmdAuthorizeVote, decodeAuthorizeVote, decodeAuthorizeVoteReply,
          hp, hn]] at hr
      rw [← hr] at h
      simp at h

/-- Replacing by key leaves exactly the new row under that key. -/
theorem filter_key_after_replace (l : List AuthorizeVote)
    (a : AuthorizeVote) :
    ((l.filter (fun x => !(x.key == a.key)) ++ [a]).filter
      (fun x => x.key == a.key)) = [a] := by
  rw [List.filter_append]
  have h1 : (l.filter (fun x => !(x.key == a.key))).filter
      (fun x => x.key == a.key) = [] := by
    rw [List.filter_eq_nil_iff]
    intro x hx
    rcases List.mem_filter.mp hx with ⟨_, hkey⟩
    simp at hkey
    simp [hkey]
  rw [h1]
  simp

/-- Replacing by key preserves at-most-one-row-per-key. -/
theorem replace_preserves_unique (l : List AuthorizeVote)
    (a : AuthorizeVote) (k : String)
    (h : (l.filter (fun x => x.key == k)).length ≤ 1) :
    (((l.filter (fun x => !(x.key == a.key)) ++ [a]).filter
      (fun x => x.key == k)).length) ≤ 1 := by
  rw [List.filter_append, List.length_append]
  by_cases hk : a.key = k
  · have h1 : (l.filter (fun x => !(x.key == a.key))).filter
        (fun x => x.key == k) = [] := by
      rw [List.filter_eq_nil_iff]
      intro x hx
      rcases List.mem_filter.mp hx with ⟨_, hkey⟩
      rw [hk] at hkey
      simp at hkey
      simp [hkey]
    rw [h1]
    by_cases hpa : (a.key == k) = true <;> simp [List.filter_cons, hpa]
  · have h2 : ([a].filter (fun x => x.key == k)) = [] := by simp [hk]
    rw [h2]
    have h3 : (l.filter (fun x => !(x.key == a.key))).filter
        (fun x => x.key == k) =
        (l.filter (fun x => x.key == k)).filter
          (fun x => !(x.key == a.key)) := by
      rw [List.filter_filter, List.filter_filter]
      exact List.filter_congr fun x _ => Bool.and_comm _ _
    rw [h3]
    simp only [List.length_append, List.length_nil]
    have := List.length_filter_le (fun x => !(x.key == a.key))
      (l.filter (fun x => x.key == k))
    omega

/-- C5: two successfully applied authorize-vote commands with the same
(token, record version) leave exactly one AuthorizeVote row under that
key, holding the second command's data; and one successful application
preserves the at-most-one-row-per-key invariant, because the prior row is
deleted in the same transaction before the new one is inserted. -/
theorem cmdAuthorizeVote_replace (db : DB)
    (av1 av2 : AuthorizeVotePayload) (avr1 avr2 : AuthorizeVoteReplyPayload)
    (fs1 fs2 : List Bool) (r1 r2 : CmdResult)
    (hr1 : cmdAuthorizeVote db (.authorizeVote av1)
      (.authorizeVoteReply avr1) fs1 = r1)
    (h1 : r1.err = none)
    (hr2 : cmdAuthorizeVote r1.db (.authorizeVote av2)
      (.authorizeVoteReply avr2) fs2 = r2)
    (h2 : r2.err = none)
    (htok : av1.token = av2.token)
    (hver : avr1.recordVersion = avr2.recordVersion) :
    (∀ v2, parseUint avr2.recordVersion = some v2 →
      r2.db.authorizeVotes.filter
        (fun x => x.key == av2.token ++ formatUint10 v2) =
        [convertAuthorizeVoteFromBitum av2 avr2 v2]) ∧
    (∀ k, (db.authorizeVotes.filter (fun x => x.key == k)).length ≤ 1 →
      (r1.db.authorizeVotes.filter (fun x => x.key == k)).length ≤ 1) := by
  obtain ⟨v1, hp1, hdb1⟩ := cmdAuthorizeVote_ok db av1 avr1 fs1 r1 hr1 h1
  obtain ⟨v2, hp2, hdb2⟩ := cmdAuthorizeVote_ok r1.db av2 avr2 fs2 r2 hr2 h2
  constructor
  · intro v2' hp2'
    rw [hp2'] at hp2
    have hv : v2' = v2 := Option.some.inj hp2
    subst hv
    rw [hdb2]
    have := filter_key_after_replace r1.db.authorizeVotes
      (convertAuthorizeVoteFromBitum av2 avr2 v2')
    simpa [convertAuthorizeVoteFromBitum] using this
  · intro k hk
    rw [hdb1]
    exact replace_preserves_unique _ _ _ hk

/-- Witness for C5: two same-key authorize-vote commands on the empty
store. -/
theorem cmdAuthorizeVote_replace_witness :
    ((cmdAuthorizeVote emptyDB (.authorizeVote ⟨"tok", "authorize", "r1"⟩)
      (.authorizeVoteReply ⟨"1", "r1"⟩) []).err = none) ∧
    ((cmdAuthorizeVote
      (cmdAuthorizeVote emptyDB (.authorizeVote ⟨"tok", "authorize", "r1"⟩)
        (.authorizeVoteReply ⟨"1", "r1"⟩) []).db
      (.authorizeVote ⟨"tok", "revoke", "r2"⟩)
      (.authorizeVoteReply ⟨"1", "r2"⟩) []).err = none) ∧
    ((∀ v2, parseUint "1" = some v2 →
      (cmdAuthorizeVote
        (cmdAuthorizeVote emptyDB (.authorizeVote ⟨"tok", "authorize", "r1"⟩)
          (.authorizeVoteReply ⟨"1", "r1"⟩) []).db
        (.authorizeVote ⟨"tok", "revoke", "r2"⟩)
        (.authorizeVoteReply ⟨"1", "r2"⟩) []).db.authorizeVotes.filter
        (fun x => x.key == "tok" ++ formatUint10 v2) =
        [convertAuthorizeVoteFromBitum ⟨"tok", "revoke", "r2"⟩
          ⟨"1", "r2"⟩ v2]) ∧
    (∀ k, (emptyDB.authorizeVotes.filter (fun x => x.key == k)).length ≤ 1 →
      ((cmdAuthorizeVote emptyDB (.authorizeVote ⟨"tok", "authorize", "r1"⟩)
        (.authorizeVoteReply ⟨"1", "r1"⟩) []).db.authorizeVotes.filter
        (fun x => x.key == k)).length ≤ 1)) :=
  ⟨by decide, by decide,
    cmdAuthorizeVote_replace emptyDB ⟨"tok", "authorize", "r1"⟩
      ⟨"tok", "revoke", "r2"⟩ ⟨"1", "r1"⟩ ⟨"1", "r2"⟩ [] [] _ _ rfl
      (by decide) rfl (by decide) rfl rfl⟩

/-- `newVoteResults` for one token never touches the vote-results rows of
a different token: it only ever appends a row carrying its own token. -/
theorem newVoteResults_preserves_other (db : DB) (tok : String)
    (fs : List Bool) (t : String) (hne : tok ≠ t) :
    (newVoteResults db tok fs).1.voteResults.filter
      (fun vr => vr.token == t) =
      db.voteResults.filter (fun vr => vr.token == t) := by
  have htok : (tok == t) = false := by simp [hne]
  rcases hf : db.startVotes.find? (fun s => s.token == tok) with _ | sv
  · simp [newVoteResults, hf]
  · rcases hb : (takeFault fs).1 with _ | _
    case true => simp [newVoteResults, hf, hb]
    case false => simp [newVoteResults, hf, hb, List.filter_append, htok]

/-- The materialization loop never touches the rows of a token it was not
asked to materialize. -/
theorem loadVoteResultsLoop_preserves (ts : List String) (db : DB)
    (fs : List Bool) (t : String) (h : ∀ tok ∈ ts, tok ≠ t) :
    (loadVoteResultsLoop db ts fs).1.voteResults.filter
      (fun vr => vr.token == t) =
      db.voteResults.filter (fun vr => vr.token == t) := by
  induction ts generalizing db fs with
  | nil => rfl
  | cons tok rest ih =>
    rcases hn : newVoteResults db tok fs with ⟨db1, fs1, oe⟩
    have hpres : db1.voteResults.filter (fun vr => vr.token == t) =
        db.voteResults.filter (fun vr => vr.token == t) := by
      have := newVoteResults_preserves_other db tok fs t (h tok (by simp))
      rw [hn] at this
      exact this
    rcases oe with _ | e
    · simp only [loadVoteResultsLoop, hn]
      rw [ih db1 fs1 (fun x hx => h x (by simp [hx]))]
      exact hpres
    · simp only [loadVoteResultsLoop, hn]
      exact hpres

/-- C2: for a token that already has a VoteResults row, a load-vote-results
command at any reference height neither recomputes nor modifies that
token's stored VoteResults (with its embedded VoteOptionResult rows): the
batch selects only tokens with a finished StartVote and no VoteResults
row, so repeated invocations are no-ops for already-materialized tokens. -/
theorem cmdLoadVoteResults_noop_for_materialized (db : DB) (best : Nat)
    (fs : List Bool) (t : String)
    (h : ∃ vr ∈ db.voteResults, vr.token = t) :
    (cmdLoadVoteResults db (.loadVoteResults best) fs).db.voteResults.filter
      (fun vr => vr.token == t) =
      db.voteResults.filter (fun vr => vr.token == t) := by
  obtain ⟨vr0, hmem, htok0⟩ := h
  have hsel : ∀ tok ∈ finishedNoResultTokens db best, tok ≠ t := by
    intro tok htokmem
    simp only [finishedNoResultTokens, List.mem_map, List.mem_filter] at htokmem
    obtain ⟨sv, ⟨hsv, hcond⟩, hsvtok⟩ := htokmem
    have hall := (Bool.and_eq_true_iff.mp hcond).2
    rw [List.all_eq_true] at hall
    have := hall vr0 hmem
    simp at this
    intro heq
    rw [← hsvtok, ← htok0] at heq
    exact this (heq.symm)
  rcases hl : loadVoteResultsLoop db (finishedNoResultTokens db best) fs
    with ⟨db1, fs1, oe⟩
  have hpres := loadVoteResultsLoop_preserves _ db fs t hsel
  rw [hl] at hpres
  rcases oe with _ | e <;>
    simpa [cmdLoadVoteResults, decodeLoadVoteResults, hl] using hpres

/-- Witness for C2: a store whose only token is already materialized. -/
theorem cmdLoadVoteResults_noop_witness :
    (∃ vr ∈ ({ emptyDB with voteResults := [⟨"a", true, []⟩] } : DB).voteResults,
      vr.token = "a") ∧
    (cmdLoadVoteResults { emptyDB with voteResults := [⟨"a", true, []⟩] }
      (.loadVoteResults 5) []).db.voteResults.filter
      (fun vr => vr.token == "a") =
      ({ emptyDB with voteResults := [⟨"a", true, []⟩] } : DB).voteResults.filter
        (fun vr => vr.token == "a") :=
  ⟨by decide, cmdLoadVoteResults_noop_for_materialized
    { emptyDB with voteResults := [⟨"a", true, []⟩] } 5 [] "a" (by decide)⟩

/-- C4: when the snapshot decodes but the rebuild fails, `Build` deletes
the plugin's version record (forcing a full rebuild on next startup) and
returns the rebuild's own error; if that deletion itself fails, the
process panics instead of continuing with a partially built cache. -/
theorem Build_recovery (db : DB) (p : Payload) (fs : List Bool)
    (ir : InventoryReply) (db1 : DB) (fs1 : List Bool) (e : Err)
    (hdec : decodeInventoryReply p = some ir)
    (hb : build db ir fs = (db1, fs1, some e)) :
    ((takeFault fs1).1 = false →
      Build db p fs = ({ db1 with versions := db1.versions.filter (fun v => !(v.id == bitumpluginID)) }, .err e) ∧
      (Build db p fs).1.versions.find? (fun v => v.id == bitumpluginID) =
        none) ∧
    ((takeFault fs1).1 = true → Build db p fs = (db1, .panicked)) := by
  constructor
  · intro hno
    have hB : Build db p fs = ({ db1 with versions := db1.versions.filter (fun v => !(v.id == bitumpluginID)) }, .err e) := by
      simp [Build, hdec, hb, hno]
    refine ⟨hB, ?_⟩
    rw [hB]
    rw [List.find?_eq_none]
    intro x hx
    rcases List.mem_filter.mp hx with ⟨_, hxk⟩
    simp at hxk
    simp [hxk]
  · intro hyes
    simp [Build, hdec, hb, hyes]

/-- The inventory snapshot of the C4 witness: one comment, so that a fault
injected at its insert makes the replay phase fail. -/
def irC4 : InventoryReply :=
  ⟨[⟨"tok", "1", "", "a", "hi", 0, false, 0, 0⟩], [], [], [], [], []⟩

/-- The C4 witness fault script: both rebuild transactions succeed (drop,
version delete, commit, table DDL, version insert, commit), then the
comment insert fails. -/
def fsC4 : List Bool := [false, false, false, false, false, false, true]

/-- The store `build` leaves behind at the C4 witness failure point. -/
def dbC4fail : DB :=
  { emptyDB with versions := [⟨bitumpluginID, bitumVersion, 0⟩] }

/-- Witness for C4: a rebuild over the empty store that fails at the first
comment insert; the version-record deletion succeeds. -/
theorem Build_recovery_witness :
    (decodeInventoryReply (.inventoryReply irC4) = some irC4) ∧
    (build emptyDB irC4 fsC4 =
      (dbC4fail, [], some (.wrapped "newComment" .sqlError))) ∧
    (((takeFault ([] : List Bool)).1 = false →
      Build emptyDB (.inventoryReply irC4) fsC4 =
        ({ dbC4fail with versions := dbC4fail.versions.filter (fun v => !(v.id == bitumpluginID)) },
         .err (.wrapped "newComment" .sqlError)) ∧
      (Build emptyDB (.inventoryReply irC4) fsC4).1.versions.find?
        (fun v => v.id == bitumpluginID) = none) ∧
    ((takeFault ([] : List Bool)).1 = true →
      Build emptyDB (.inventoryReply irC4) fsC4 = (dbC4fail, .panicked))) :=
  ⟨rfl, by decide,
    Build_recovery emptyDB (.inventoryReply irC4) fsC4 irC4 dbC4fail []
      (.wrapped "newComment" .sqlError) rfl (by decide)⟩

/-- The stale-tally guard fires exactly when some finished start vote has
no vote results row. -/
theorem finishedNoResultTokens_pos_iff (db : DB) (best : Nat) :
    0 < (finishedNoResultTokens db best).length ↔
    ∃ sv ∈ db.startVotes, sv.endHeight ≤ best ∧
      ∀ vr ∈ db.voteResults, vr.token ≠ sv.token := by
  unfold finishedNoResultTokens
  rw [List.length_map]
  constructor
  · intro h
    obtain ⟨sv, hsv⟩ := List.exists_mem_of_length_pos h
    rcases List.mem_filter.mp hsv with ⟨hmem, hcond⟩
    rcases Bool.and_eq_true_iff.mp hcond with ⟨hend, hall⟩
    refine ⟨sv, hmem, by simpa using hend, ?_⟩
    intro vr hvr
    have := (List.all_eq_true.mp hall) vr hvr
    simpa using this
  · rintro ⟨sv, hmem, hend, hall⟩
    have hcond : (decide (sv.endHeight ≤ best) &&
        db.voteResults.all (fun vr => !(vr.token == sv.token))) = true := by
      rw [Bool.and_eq_true_iff]
      refine ⟨by simpa using hend, List.all_eq_true.mpr ?_⟩
      intro vr hvr
      simpa using hall vr hvr
    have : sv ∈ db.startVotes.filter (fun sv =>
        decide (sv.endHeight ≤ best) &&
        db.voteResults.all (fun vr => !(vr.token == sv.token))) :=
      List.mem_filter.mpr ⟨hmem, hcond⟩
    calc 0 < 1 := Nat.zero_lt_one
      _ ≤ _ := List.length_pos.mpr (List.ne_nil_of_mem this)

/-- Membership in the sorted, token-projected INNER JOIN of vote results
with start votes: with every vote-results token backed by a start vote,
it is exactly membership among the vote-results rows with the given
approved flag. -/
theorem mem_voteResultsJoin_tokens (db : DB) (flag : Bool) (t : String)
    (hwf : ∀ vr ∈ db.voteResults, ∃ sv ∈ db.startVotes, sv.token = vr.token) :
    (t ∈ (List.insertionSort
      (keyDesc (fun p : VoteResults × StartVote => p.2.endHeight))
      (voteResultsJoin db flag)).map (fun p => p.1.token) ↔
    ∃ vr ∈ db.voteResults, vr.token = t ∧ vr.approved = flag) := by
  rw [List.mem_map]
  constructor
  · rintro ⟨p, hp, hpt⟩
    have hp2 : p ∈ voteResultsJoin db flag :=
      (List.perm_insertionSort _ _).mem_iff.mp hp
    simp only [voteResultsJoin, List.mem_flatMap, List.mem_filter,
      List.mem_map] at hp2
    obtain ⟨vr, ⟨hvrmem, hvrflag⟩, sv, hsv, hpeq⟩ := hp2
    refine ⟨vr, hvrmem, ?_, by simpa using hvrflag⟩
    rw [← hpt, ← hpeq]
  · rintro ⟨vr, hvrmem, hvrt, hvrflag⟩
    obtain ⟨sv, hsvmem, hsvtok⟩ := hwf vr hvrmem
    refine ⟨(vr, sv), ?_, hvrt⟩
    apply (List.perm_insertionSort _ _).mem_iff.mpr
    simp only [voteResultsJoin, List.mem_flatMap, List.mem_filter,
      List.mem_map]
    exact ⟨vr, ⟨hvrmem, by simp [hvrflag]⟩, sv,
      ⟨hsvmem, by simp [hsvtok]⟩, rfl⟩

/-- What C3 asserts of the token-inventory output: when some start vote has
finished (end height at or before the reference height) without a
materialized VoteResults row, the command fails with the not-found error
and returns no classification; otherwise it succeeds with the five
buckets, where active consists exactly of the start votes with end height
strictly above the reference height ordered by end height descending, and
approved/rejected contain exactly the tokens whose VoteResults row has
approved = true / false. -/
def tokenInventorySpec (db : DB) (best : Nat)
    (out : Payload × Option Err) : Prop :=
  ((∃ sv ∈ db.startVotes, sv.endHeight ≤ best ∧
      ∀ vr ∈ db.voteResults, vr.token ≠ sv.token) →
    out = (.raw "", some .recordNotFound)) ∧
  ((¬ ∃ sv ∈ db.startVotes, sv.endHeight ≤ best ∧
      ∀ vr ∈ db.voteResults, vr.token ≠ sv.token) →
    out.2 = none ∧ ∃ rep : TokenInventoryReply,
      out.1 = .tokenInventoryReply rep ∧
      (∃ l : List StartVote,
        List.Sorted (keyDesc (fun sv : StartVote => sv.endHeight)) l ∧
        l.Perm (db.startVotes.filter (fun sv => decide (best < sv.endHeight))) ∧
        rep.active = l.map (fun sv => sv.token)) ∧
      (∀ t, t ∈ rep.approved ↔
        ∃ vr ∈ db.voteResults, vr.token = t ∧ vr.approved = true) ∧
      (∀ t, t ∈ rep.rejected ↔
        ∃ vr ∈ db.voteResults, vr.token = t ∧ vr.approved = false))

/-- C3: the token-inventory command refuses with a not-found error whenever
a finished start vote lacks a VoteResults row, and otherwise classifies:
active holds exactly the still-running votes ordered by end height
descending, approved/rejected exactly the tokens with a true/false
approved flag (the store invariant that every VoteResults row stems from a
StartVote row is the `hwf` hypothesis, matching the INNER JOIN of the
source queries). -/
theorem cmdTokenInventory_classifies (db : DB) (best : Nat)
    (hwf : ∀ vr ∈ db.voteResults, ∃ sv ∈ db.startVotes, sv.token = vr.token) :
    tokenInventorySpec db best (cmdTokenInventory db (.tokenInventory best)) := by
  constructor
  · intro hex
    have hpos : 0 < (finishedNoResultTokens db best).length :=
      (finishedNoResultTokens_pos_iff db best).mpr hex
    simp [cmdTokenInventory, decodeTokenInventory, hpos]
  · intro hnex
    have hzero : ¬ 0 < (finishedNoResultTokens db best).length :=
      fun hp => hnex ((finishedNoResultTokens_pos_iff db best).mp hp)
    simp only [cmdTokenInventory, decodeTokenInventory, if_neg hzero]
    refine ⟨by trivial, _, by trivial, ?_, ?_, ?_⟩
    · exact ⟨activeStartVotes db best,
        List.sorted_insertionSort _ _, List.perm_insertionSort _ _, rfl⟩
    · intro t
      exact mem_voteResultsJoin_tokens db true t hwf
    · intro t
      exact mem_voteResultsJoin_tokens db false t hwf

/-- Witness for C3: one finished, materialized vote and one active vote. -/
theorem cmdTokenInventory_classifies_witness :
    (∀ vr ∈ ({ emptyDB with
        startVotes := [⟨"a", [], 10, [], 0, 0, 0⟩, ⟨"b", [], 99, [], 0, 0, 0⟩],
        voteResults := [⟨"a", true, []⟩] } : DB).voteResults,
      ∃ sv ∈ ({ emptyDB with
        startVotes := [⟨"a", [], 10, [], 0, 0, 0⟩, ⟨"b", [], 99, [], 0, 0, 0⟩],
        voteResults := [⟨"a", true, []⟩] } : DB).startVotes,
        sv.token = vr.token) ∧
    tokenInventorySpec
      { emptyDB with
        startVotes := [⟨"a", [], 10, [], 0, 0, 0⟩, ⟨"b", [], 99, [], 0, 0, 0⟩],
        voteResults := [⟨"a", true, []⟩] } 42
      (cmdTokenInventory
        { emptyDB with
          startVotes := [⟨"a", [], 10, [], 0, 0, 0⟩, ⟨"b", [], 99, [], 0, 0, 0⟩],
          voteResults := [⟨"a", true, []⟩] } (.tokenInventory 42)) :=
  ⟨by decide, cmdTokenInventory_classifies
    { emptyDB with
      startVotes := [⟨"a", [], 10, [], 0, 0, 0⟩, ⟨"b", [], 99, [], 0, 0, 0⟩],
      voteResults := [⟨"a", true, []⟩] } 42 (by decide)⟩

/-- The per-option tally of `newVoteResults`: cast votes of the token
whose vote bit equals the option's lower-case hex bit string. -/
def optionTally (db : DB) (token : String) (bits : Nat) : Nat :=
  ((db.castVotes.filter (fun c => c.token == token)).filter
    (fun c => c.voteBit == formatUint16 bits)).length

/-- The total of `newVoteResults`: the sum of all per-option tallies. -/
def totalTally (db : DB) (token : String) (sv : StartVote) : Nat :=
  (sv.options.map (fun v => optionTally db token v.bits)).sum

/-- A fold that keeps the last matching element's value passes an
untouched accumulator through a match-free list. -/
theorem foldl_no_match {α : Type} (p : α → Bool) (g : α → Nat) (l : List α)
    (init : Nat) (h : l.filter p = []) :
    l.foldl (fun acc v => if p v then g v else acc) init = init := by
  induction l generalizing init with
  | nil => rfl
  | cons a l' ih =>
    rw [List.filter_cons] at h
    by_cases hpa : p a = true
    · simp [hpa] at h
    · rw [if_neg (by simp [hpa])] at h
      simp only [List.foldl_cons, if_neg (by simp [hpa] : ¬p a = true)]
      exact ih init h

/-- A fold that keeps the last matching element's value returns that value
when exactly one element matches. -/
theorem foldl_single_match {α : Type} (p : α → Bool) (g : α → Nat)
    (l : List α) (o : α) (init : Nat) (h : l.filter p = [o]) :
    l.foldl (fun acc v => if p v then g v else acc) init = g o := by
  induction l generalizing init with
  | nil => simp at h
  | cons a l' ih =>
    rw [List.filter_cons] at h
    by_cases hpa : p a = true
    · rw [if_pos hpa] at h
      injection h with h1 h2
      subst h1
      simp only [List.foldl_cons, if_pos hpa]
      exact foldl_no_match p g l' (g a) h2
    · rw [if_neg (by simp [hpa])] at h
      simp only [List.foldl_cons, if_neg (by simp [hpa] : ¬p a = true)]
      exact ih init h

/-- The approval switch of `newVoteResults` (quorum not met / pass
percentage not met / approved) as an iff. -/
theorem approvedBool_iff (total quorum yesv pass : Nat) :
    ((if total < quorum then false else if yesv < pass then false
      else true) = true) ↔ (quorum ≤ total ∧ pass ≤ yesv) := by
  by_cases h1 : total < quorum <;> by_cases h2 : yesv < pass <;>
    simp [h1, h2] <;> omega

/-- The start vote of the C1 counterexample: a 29% quorum over 100
eligible tickets (a 99-comma ticket string), pass percentage 0, and the
binary yes/no option layout. -/
def svC1 : StartVote :=
  { token := "t", options := [⟨"t", "no", "", 1⟩, ⟨"t", "yes", "", 2⟩]
    endHeight := 1, eligibleTickets := List.replicate 99 ','
    eligibleTicketCount := 100, quorumPercentage := 29, passPercentage := 0 }

/-- The store of the C1 counterexample: 28 cast yes-votes on `svC1`. -/
def dbC1 : DB :=
  { emptyDB with
    startVotes := [svC1]
    castVotes := (List.range 28).map (fun i =>
      ⟨"t", formatUint10 i, "2", "t2"⟩) }

/-- C1 counterexample: the claim's exact-arithmetic quorum formula
`floor(quorumPercentage/100 * eligible)` gives 29 here, the 28 cast votes
miss it, so the claim requires `approved = false`; but the source computes
the threshold as `uint64(float64(29)/100 * float64(100))`, and binary64
rounding makes that 28, so `newVoteResults` stores `approved = true`.  The
claim's iff is therefore false at this input. -/
theorem newVoteResults_spec_formula_counterexample :
    ((newVoteResults dbC1 "t" []).1.voteResults.map
      (fun vr => vr.approved) = [true]) ∧
    totalTally dbC1 "t" svC1 = 28 ∧
    specThreshold svC1.quorumPercentage
      (eligibleCount svC1.eligibleTickets) = 29 ∧
    ¬ (specThreshold svC1.quorumPercentage
      (eligibleCount svC1.eligibleTickets) ≤ totalTally dbC1 "t" svC1) := by
  refine ⟨?_, ?_, ?_, ?_⟩ <;> decide

/-- C1 amended: for a successfully materialized token whose start vote has
exactly one option with ID "yes", the stored approved flag is true iff
`total >= quorum` and `yesVotes >= pass`, where total is the sum of the
per-option tallies, yesVotes the tally of the "yes" option, and quorum and
pass are the thresholds the source computes —
`uint64(float64(pct)/100 * float64(count))` under IEEE-754 binary64
rounding (`threshold`), which agree with the spec's exact floors except
where float64 rounding deviates. -/
theorem newVoteResults_approved_iff
    (db : DB) (token : String) (fs fs' : List Bool) (db' : DB)
    (h : newVoteResults db token fs = (db', fs', none))
    (sv : StartVote)
    (hsv : db.startVotes.find? (fun s => s.token == token) = some sv)
    (o : VoteOption)
    (hyes : sv.options.filter (fun v => v.id == voteOptionIDApproved) = [o]) :
    ∃ vr : VoteResults,
      db'.voteResults = db.voteResults ++ [vr] ∧ vr.token = token ∧
      (vr.approved = true ↔
        (threshold sv.quorumPercentage (eligibleCount sv.eligibleTickets) ≤
          totalTally db token sv ∧
         threshold sv.passPercentage (totalTally db token sv) ≤
          optionTally db token o.bits)) := by
  rcases hb : (takeFault fs).1 with _ | _
  case true => simp [newVoteResults, hsv, hb] at h
  case false =>
    simp only [newVoteResults, hsv, hb, Bool.false_eq_true, if_false,
      Prod.mk.injEq] at h
    obtain ⟨hdb, hfs, -⟩ := h
    subst hdb
    refine ⟨_, rfl, rfl, ?_⟩
    rw [approvedBool_iff]
    have htot : ((sv.options.map (fun v =>
        ({ key := token ++ formatUint16 v.bits
           votes := ((db.castVotes.filter (fun c => c.token == token)).filter
             (fun c => c.voteBit == formatUint16 v.bits)).length
           option := v } : VoteOptionResult))).map (fun r => r.votes)).sum =
        totalTally db token sv := by
      rw [List.map_map]
      rfl
    have hfold : (sv.options.map (fun v =>
        ({ key := token ++ formatUint16 v.bits
           votes := ((db.castVotes.filter (fun c => c.token == token)).filter
             (fun c => c.voteBit == formatUint16 v.bits)).length
           option := v } : VoteOptionResult))).foldl
        (fun acc v => if v.option.id == voteOptionIDApproved then v.votes
          else acc) 0 = optionTally db token o.bits := by
      have hfm : (sv.options.map (fun v =>
          ({ key := token ++ formatUint16 v.bits
             votes := ((db.castVotes.filter (fun c => c.token == token)).filter
               (fun c => c.voteBit == formatUint16 v.bits)).length
             option := v } : VoteOptionResult))).filter
          (fun r => r.option.id == voteOptionIDApproved) =
          [({ key := token ++ formatUint16 o.bits
              votes := ((db.castVotes.filter (fun c => c.token == token)).filter
                (fun c => c.voteBit == formatUint16 o.bits)).length
              option := o } : VoteOptionResult)] := by
        rw [List.filter_map]
        have : (fun r : VoteOptionResult =>
            r.option.id == voteOptionIDApproved) ∘ (fun v : VoteOption =>
            ({ key := token ++ formatUint16 v.bits
               votes := ((db.castVotes.filter (fun c => c.token == token)).filter
                 (fun c => c.voteBit == formatUint16 v.bits)).length
               option := v } : VoteOptionResult)) =
            (fun v : VoteOption => v.id == voteOptionIDApproved) := rfl
        rw [this, hyes]
        rfl
      exact foldl_single_match _ _ _ _ 0 hfm
    rw [htot, hfold]

/-- The start vote of the C1 amended-theorem witness: binary options,
100% quorum and pass over a single eligible-ticket field. -/
def svC1w : StartVote :=
  { token := "t", options := [⟨"t", "no", "", 1⟩, ⟨"t", "yes", "", 2⟩]
    endHeight := 1, eligibleTickets := [], eligibleTicketCount := 0
    quorumPercentage := 100, passPercentage := 100 }

/-- The store of the C1 amended-theorem witness: one cast yes-vote. -/
def dbC1w : DB :=
  { emptyDB with startVotes := [svC1w], castVotes := [⟨"t", "x", "2", "t2"⟩] }

/-- The store after materializing the C1 amended-theorem witness. -/
def dbC1wAfter : DB :=
  { dbC1w with voteResults := [⟨"t", true,
      [⟨"t1", 0, ⟨"t", "no", "", 1⟩⟩, ⟨"t2", 1, ⟨"t", "yes", "", 2⟩⟩]⟩] }

/-- Witness for the C1 amended theorem at a concrete one-vote store. -/
theorem newVoteResults_approved_iff_witness :
    (newVoteResults dbC1w "t" [] = (dbC1wAfter, [], none)) ∧
    (dbC1w.startVotes.find? (fun s => s.token == "t") = some svC1w) ∧
    (svC1w.options.filter (fun v => v.id == voteOptionIDApproved) =
      [⟨"t", "yes", "", 2⟩]) ∧
    (∃ vr : VoteResults,
      dbC1wAfter.voteResults = dbC1w.voteResults ++ [vr] ∧ vr.token = "t" ∧
      (vr.approved = true ↔
        (threshold svC1w.quorumPercentage
          (eligibleCount svC1w.eligibleTickets) ≤ totalTally dbC1w "t" svC1w ∧
         threshold svC1w.passPercentage (totalTally dbC1w "t" svC1w) ≤
          optionTally dbC1w "t" (2 : Nat)))) :=
  ⟨by decide, by decide, by decide,
    newVoteResults_approved_iff dbC1w "t" [] [] dbC1wAfter (by decide)
      svC1w (by decide) ⟨"t", "yes", "", 2⟩ (by decide)⟩

/-- Witness for C6 at a concrete store holding one matching comment. -/
theorem cmdCensorComment_censors_witness :
    (cmdCensorComment
      { emptyDB with comments :=
          [⟨"tok1", "tok", "1", "", "alice", "hello", 5, false, 2, 3⟩] }
      (.censorComment ⟨"tok", "1"⟩) (.raw "r") []).err = none ∧
    censorFrameSpec
      { emptyDB with comments :=
          [⟨"tok1", "tok", "1", "", "alice", "hello", 5, false, 2, 3⟩] }
      ⟨"tok", "1"⟩ (.raw "r")
      (cmdCensorComment
        { emptyDB with comments :=
            [⟨"tok1", "tok", "1", "", "alice", "hello", 5, false, 2, 3⟩] }
        (.censorComment ⟨"tok", "1"⟩) (.raw "r") []) :=
  ⟨by decide, cmdCensorComment_censors _ ⟨"tok", "1"⟩ (.raw "r") [] _ rfl
    (by decide)⟩

end Politeia
